import Mathlib

/-!
# Verification of the PhysioTrack kinematics and activity-segmentation core

Shallow embedding of the repository's algorithmic core:

* `kinematics.js` (joint-angle calculator over 17-keypoint frames),
* the activity-segmentation pipeline of `StaticDashboard.jsx`
  (raw movement score, moving-average smoothing, threshold region extraction),
* the angle time-series accumulators of `Dashboard.jsx` (bulk) and the
  live-tracking component (streaming).

JavaScript numbers are modelled as real numbers; `Number.prototype.toFixed(1)`
is modelled by `toFixed1` (round half towards positive infinity at one decimal,
which is the numeric value of the decimal string JS produces).  Keypoint arrays
are lists of optional 3D points (`none` models a null / undefined entry), and a
possibly-absent keypoints argument is an `Option Frame`.

The small 3D-vector / matrix primitives the calculator calls (subtraction, dot
and cross product, normalization, look-at basis construction, 4x4 inversion
restricted to its rotation block, YXZ Euler extraction) live in the three.js
dependency, not in the repository; they are modelled here from the spec's
Vector/Rotation Kernel section, following the reference semantics of those
operations (normalization divides by the length unless it is zero; inversion
returns the zero matrix on a singular input; the YXZ Euler branch uses
`asin`/`atan2` with a gimbal-lock fallback).
-/

noncomputable section

open Real

/-- A 3D vector with real coordinates (three.js `Vector3`). -/
structure Vec3 where
  x : ℝ
  y : ℝ
  z : ℝ

namespace Vec3

/-- Componentwise subtraction (`subVectors`). -/
def sub (a b : Vec3) : Vec3 := ⟨a.x - b.x, a.y - b.y, a.z - b.z⟩

/-- Dot product. -/
def dot (a b : Vec3) : ℝ := a.x * b.x + a.y * b.y + a.z * b.z

/-- Cross product (`crossVectors`). -/
def cross (a b : Vec3) : Vec3 :=
  ⟨a.y * b.z - a.z * b.y, a.z * b.x - a.x * b.z, a.x * b.y - a.y * b.x⟩

/-- Squared Euclidean length (`lengthSq`). -/
def lengthSq (a : Vec3) : ℝ := a.x * a.x + a.y * a.y + a.z * a.z

/-- Euclidean length (`length`). -/
def len (a : Vec3) : ℝ := Real.sqrt a.lengthSq

/-- Scalar multiple. -/
def smul (c : ℝ) (a : Vec3) : Vec3 := ⟨c * a.x, c * a.y, c * a.z⟩

/-- Modelled from the spec: three.js `normalize` divides by the length, or by 1
when the length is zero (`divideScalar(this.length() || 1)`), so the zero
vector normalizes to itself. -/
def normalize (a : Vec3) : Vec3 :=
  smul (1 / (if a.len = 0 then 1 else a.len)) a

/-- The zero vector. -/
def zero : Vec3 := ⟨0, 0, 0⟩

end Vec3

/-- The rotation block of a three.js `Matrix4` (the calculator only ever sets
and reads the upper-left 3x3 rotation entries; the remaining entries stay at
their identity values throughout, so the 3x3 block is a faithful model).
Field `mIJ` is the entry at row `I`, column `J`. -/
structure Mat3 where
  m11 : ℝ
  m12 : ℝ
  m13 : ℝ
  m21 : ℝ
  m22 : ℝ
  m23 : ℝ
  m31 : ℝ
  m32 : ℝ
  m33 : ℝ

namespace Mat3

/-- The identity matrix (`Matrix4().identity()`). -/
def idm : Mat3 := ⟨1, 0, 0, 0, 1, 0, 0, 0, 1⟩

/-- The zero matrix. -/
def zero : Mat3 := ⟨0, 0, 0, 0, 0, 0, 0, 0, 0⟩

/-- `makeBasis(x, y, z)`: the three argument vectors become the columns. -/
def makeBasis (a b c : Vec3) : Mat3 :=
  ⟨a.x, b.x, c.x, a.y, b.y, c.y, a.z, b.z, c.z⟩

/-- Matrix product (`multiplyMatrices(a, b)` is `a * b`). -/
def mul (a b : Mat3) : Mat3 :=
  ⟨a.m11 * b.m11 + a.m12 * b.m21 + a.m13 * b.m31,
   a.m11 * b.m12 + a.m12 * b.m22 + a.m13 * b.m32,
   a.m11 * b.m13 + a.m12 * b.m23 + a.m13 * b.m33,
   a.m21 * b.m11 + a.m22 * b.m21 + a.m23 * b.m31,
   a.m21 * b.m12 + a.m22 * b.m22 + a.m23 * b.m32,
   a.m21 * b.m13 + a.m22 * b.m23 + a.m23 * b.m33,
   a.m31 * b.m11 + a.m32 * b.m21 + a.m33 * b.m31,
   a.m31 * b.m12 + a.m32 * b.m22 + a.m33 * b.m32,
   a.m31 * b.m13 + a.m32 * b.m23 + a.m33 * b.m33⟩

/-- Determinant. -/
def det (a : Mat3) : ℝ :=
  a.m11 * (a.m22 * a.m33 - a.m23 * a.m32)
    - a.m12 * (a.m21 * a.m33 - a.m23 * a.m31)
    + a.m13 * (a.m21 * a.m32 - a.m22 * a.m31)

/-- Modelled from the spec: three.js `Matrix4.invert` computes the cofactor
inverse and sets every entry to zero when the determinant is zero.  Restricted
to the rotation block this is the 3x3 adjugate divided by the determinant. -/
def inv (a : Mat3) : Mat3 :=
  if a.det = 0 then zero
  else
    let d := a.det
    ⟨(a.m22 * a.m33 - a.m23 * a.m32) / d,
     (a.m13 * a.m32 - a.m12 * a.m33) / d,
     (a.m12 * a.m23 - a.m13 * a.m22) / d,
     (a.m23 * a.m31 - a.m21 * a.m33) / d,
     (a.m11 * a.m33 - a.m13 * a.m31) / d,
     (a.m13 * a.m21 - a.m11 * a.m23) / d,
     (a.m21 * a.m32 - a.m22 * a.m31) / d,
     (a.m12 * a.m31 - a.m11 * a.m32) / d,
     (a.m11 * a.m22 - a.m12 * a.m21) / d⟩

end Mat3

/-- JavaScript `Math.atan2(y, x)` over the reals (signed zeros do not exist in
`ℝ`; `atan2 0 x = π` for negative `x`, and `atan2 0 0 = 0`). -/
def atan2 (y x : ℝ) : ℝ :=
  if 0 < x then Real.arctan (y / x)
  else if x < 0 then
    (if 0 ≤ y then Real.arctan (y / x) + Real.pi else Real.arctan (y / x) - Real.pi)
  else
    (if 0 < y then Real.pi / 2 else if y < 0 then -(Real.pi / 2) else 0)

/-- `clamp(v, lo, hi)` as used by three.js: `max(lo, min(hi, v))`. -/
def clamp (v lo hi : ℝ) : ℝ := max lo (min hi v)

/-- Modelled from the spec: three.js `Matrix4.lookAt(eye, target, up)`.
Builds the orthonormal column basis `(x, y, z)` with `z` along `eye - target`
(forward axis) and `up` as the up reference; degenerate inputs fall back to a
fixed axis (zero forward becomes `(0,0,1)`) or are nudged by `0.0001` when
`up` is parallel to `z`. -/
def lookAtBasis (eye target up : Vec3) : Mat3 :=
  let z0 := eye.sub target
  let z1 := if z0.lengthSq = 0 then Vec3.mk z0.x z0.y 1 else z0
  let z2 := z1.normalize
  let x0 := up.cross z2
  if x0.lengthSq = 0 then
    let z3 :=
      if |up.z| = 1 then Vec3.mk (z2.x + 1 / 10000) z2.y z2.z
      else Vec3.mk z2.x z2.y (z2.z + 1 / 10000)
    let z4 := z3.normalize
    let x1 := (up.cross z4).normalize
    Mat3.makeBasis x1 (z4.cross x1) z4
  else
    let x2 := x0.normalize
    Mat3.makeBasis x2 (z2.cross x2) z2

/-- Modelled from the spec: three.js `Euler.setFromRotationMatrix(R, 'YXZ')`,
in radians: `x = asin(-clamp(m23, -1, 1))`; away from gimbal lock
(`|m23| < 0.9999999`) `y = atan2(m13, m33)` and `z = atan2(m21, m22)`,
otherwise `y = atan2(-m31, m11)` and `z = 0`. -/
def eulerYXZ (R : Mat3) : ℝ × ℝ × ℝ :=
  let ex := Real.arcsin (-(clamp R.m23 (-1) 1))
  if |R.m23| < 9999999 / 10000000 then
    (ex, atan2 R.m13 R.m33, atan2 R.m21 R.m22)
  else
    (ex, atan2 (-R.m31) R.m11, 0)

/-- `Number.prototype.toFixed(1)`: the numeric value of the decimal string is
the input rounded to one decimal place, half towards positive infinity. -/
def toFixed1 (v : ℝ) : ℝ := (⌊10 * v + 1 / 2⌋ : ℤ) / 10

/-- A keypoint array: each entry is a 3D point or `none` (null / undefined). -/
def Frame : Type := List (Option Vec3)

/-- `keypoints[i]`: out-of-range indexing yields undefined (`none`). -/
def getkp (kp : Frame) (i : ℕ) : Option Vec3 := (List.getD kp i none)

/-- The 23 angle names of `ANGLE_KEYS` in `kinematics.js`. -/
def ANGLE_KEYS : List String :=
  ["Neck (X-Axis Rotation)", "Neck (Y-Axis Rotation)", "Neck (Z-Axis Rotation)",
   "Torso-Neck (Vertical)",
   "Waist (X-Axis Rotation)", "Waist (Y-Axis Rotation)", "Waist (Z-Axis Rotation)",
   "R Shoulder (X-Axis Rotation)", "L Shoulder (X-Axis Rotation)",
   "R Shoulder (Y-Axis Rotation)", "L Shoulder (Y-Axis Rotation)",
   "R Shoulder (Z-Axis Rotation)", "L Shoulder (Z-Axis Rotation)",
   "R_Elbow (Bend)", "L_Elbow (Bend)",
   "R Hip (X-Axis Rotation)", "L Hip (X-Axis Rotation)",
   "R Hip (Y-Axis Rotation)", "L Hip (Y-Axis Rotation)",
   "R Hip (Z-Axis Rotation)", "L Hip (Z-Axis Rotation)",
   "R_Knee (Bend)", "L_Knee (Bend)"]

namespace kinematics

/-- `calculate_3d_angle(A, B, C)` from `kinematics.js`: the angle at vertex `B`
in degrees; `0.0` if any point is null / undefined or if the product of the
segment lengths is below `1e-9`. -/
def calculate_3d_angle (A B C : Option Vec3) : ℝ :=
  match A, B, C with
  | some a, some b, some c =>
    let v1 := a.sub b
    let v2 := c.sub b
    let denom := v1.len * v2.len
    if denom < 1 / 1000000000 then 0
    else Real.arccos (clamp (v1.dot v2 / denom) (-1) 1) * 180 / Real.pi
  | _, _, _ => 0

/-- `calculate_vertical_angle(startKp, endKp)` from `kinematics.js`: angle of
the segment against the world vertical `(0,1,0)`, `0.0` on null / undefined
points or a segment shorter than `1e-9`. -/
def calculate_vertical_angle (startKp endKp : Option Vec3) : ℝ :=
  match startKp, endKp with
  | some a, some b =>
    let seg := b.sub a
    let norm := seg.len
    if norm < 1 / 1000000000 then 0
    else Real.arccos (clamp (seg.dot ⟨0, 1, 0⟩ / norm) (-1) 1) * 180 / Real.pi
  | _, _ => 0

/-- `rotation_matrix_to_euler_angles(R)`: YXZ Euler angles in degrees. -/
def rotation_matrix_to_euler_angles (R : Mat3) : ℝ × ℝ × ℝ :=
  let e := eulerYXZ R
  (e.1 * 180 / Real.pi, e.2.1 * 180 / Real.pi, e.2.2 * 180 / Real.pi)

/-- `compute_rotation_matrix(proximal_vec, distal_vec)`: identity when either
input has squared length below `1e-9`, otherwise the inverse of the look-at
basis with eye at the origin, target `distal_vec` and up `proximal_vec`. -/
def compute_rotation_matrix (proximal distal : Vec3) : Mat3 :=
  if proximal.lengthSq < 1 / 1000000000 ∨ distal.lengthSq < 1 / 1000000000 then Mat3.idm
  else (lookAtBasis Vec3.zero distal proximal).inv

/-- The waist block of `calculate_anatomical_angles`: runs when
`kp.length > 8`; a thrown access to a missing keypoint is caught by the
enclosing `try` and produces no entries, as does a failed degeneracy guard
(the guards test the squared length of the already-normalized vectors). -/
def waistEntries (kp : Frame) : List (String × ℝ) :=
  if 8 < kp.length then
    match getkp kp 7, getkp kp 0, getkp kp 1, getkp kp 4 with
    | some p7, some p0, some p1, some p4 =>
      let proximal_y := (p7.sub p0).normalize
      let x_axis_ref := (p1.sub p4).normalize
      if 1 / 1000000000 < proximal_y.lengthSq ∧ 1 / 1000000000 < x_axis_ref.lengthSq then
        match getkp kp 8 with
        | some p8 =>
          let z_axis_local := (proximal_y.cross x_axis_ref).normalize
          let x_axis_local := (proximal_y.cross z_axis_local).normalize
          let R_local := Mat3.makeBasis x_axis_local proximal_y z_axis_local
          let torso_y := (p8.sub p7).normalize
          if 1 / 1000000000 < torso_y.lengthSq then
            let z_axis_torso := (torso_y.cross x_axis_ref).normalize
            let x_axis_torso := (torso_y.cross z_axis_torso).normalize
            let R_torso := Mat3.makeBasis x_axis_torso torso_y z_axis_torso
            let R_relative := R_torso.mul R_local.inv
            let e := rotation_matrix_to_euler_angles R_relative
            [("Waist (X-Axis Rotation)", toFixed1 e.1),
             ("Waist (Y-Axis Rotation)", toFixed1 e.2.1),
             ("Waist (Z-Axis Rotation)", toFixed1 e.2.2)]
          else []
        | none => []
      else []
    | _, _, _, _ => []
  else []

/-- The neck block of `calculate_anatomical_angles` (`kp.length > 9`). -/
def neckEntries (kp : Frame) : List (String × ℝ) :=
  if 9 < kp.length then
    match getkp kp 7, getkp kp 8, getkp kp 9 with
    | some p7, some p8, some p9 =>
      let e := rotation_matrix_to_euler_angles
        (compute_rotation_matrix (p7.sub p8) (p9.sub p8))
      [("Neck (X-Axis Rotation)", toFixed1 e.1),
       ("Neck (Y-Axis Rotation)", toFixed1 e.2.1),
       ("Neck (Z-Axis Rotation)", toFixed1 e.2.2)]
    | _, _, _ => []
  else []

/-- The right-shoulder block of `calculate_anatomical_angles`
(`kp.length > 12`; proximal `p8 - p11`, distal `p12 - p11`). -/
def rShoulderEntries (kp : Frame) : List (String × ℝ) :=
  if 12 < kp.length then
    match getkp kp 8, getkp kp 11, getkp kp 12 with
    | some p8, some p11, some p12 =>
      let e := rotation_matrix_to_euler_angles
        (compute_rotation_matrix (p8.sub p11) (p12.sub p11))
      [("R Shoulder (X-Axis Rotation)", toFixed1 e.1),
       ("R Shoulder (Y-Axis Rotation)", toFixed1 e.2.1),
       ("R Shoulder (Z-Axis Rotation)", toFixed1 e.2.2)]
    | _, _, _ => []
  else []

/-- The left-shoulder block (`kp.length > 15`): the Y and Z Euler components
are sign-negated before storing. -/
def lShoulderEntries (kp : Frame) : List (String × ℝ) :=
  if 15 < kp.length then
    match getkp kp 8, getkp kp 14, getkp kp 15 with
    | some p8, some p14, some p15 =>
      let e := rotation_matrix_to_euler_angles
        (compute_rotation_matrix (p8.sub p14) (p15.sub p14))
      [("L Shoulder (X-Axis Rotation)", toFixed1 e.1),
       ("L Shoulder (Y-Axis Rotation)", toFixed1 (-e.2.1)),
       ("L Shoulder (Z-Axis Rotation)", toFixed1 (-e.2.2))]
    | _, _, _ => []
  else []

/-- The right-hip block (`kp.length > 2`; proximal `p0 - p1`, distal `p2 - p1`). -/
def rHipEntries (kp : Frame) : List (String × ℝ) :=
  if 2 < kp.length then
    match getkp kp 0, getkp kp 1, getkp kp 2 with
    | some p0, some p1, some p2 =>
      let e := rotation_matrix_to_euler_angles
        (compute_rotation_matrix (p0.sub p1) (p2.sub p1))
      [("R Hip (X-Axis Rotation)", toFixed1 e.1),
       ("R Hip (Y-Axis Rotation)", toFixed1 e.2.1),
       ("R Hip (Z-Axis Rotation)", toFixed1 e.2.2)]
    | _, _, _ => []
  else []

/-- The left-hip block (`kp.length > 5`): Y and Z sign-negated. -/
def lHipEntries (kp : Frame) : List (String × ℝ) :=
  if 5 < kp.length then
    match getkp kp 0, getkp kp 4, getkp kp 5 with
    | some p0, some p4, some p5 =>
      let e := rotation_matrix_to_euler_angles
        (compute_rotation_matrix (p0.sub p4) (p5.sub p4))
      [("L Hip (X-Axis Rotation)", toFixed1 e.1),
       ("L Hip (Y-Axis Rotation)", toFixed1 (-e.2.1)),
       ("L Hip (Z-Axis Rotation)", toFixed1 (-e.2.2))]
    | _, _, _ => []
  else []

/-- `calculate_anatomical_angles(kp)` as the association list of the angle
entries its blocks store (keys are pairwise distinct across blocks, so the
association list is a faithful model of the JS object). -/
def calculate_anatomical_angles (kp : Frame) : List (String × ℝ) :=
  waistEntries kp ++ neckEntries kp ++ rShoulderEntries kp ++ lShoulderEntries kp
    ++ rHipEntries kp ++ lHipEntries kp

/-- The four bend entries of `process_all_angles` (knees then elbows). -/
def bendEntries (kp : Frame) : List (String × ℝ) :=
  [("R_Knee (Bend)", toFixed1 (calculate_3d_angle (getkp kp 1) (getkp kp 2) (getkp kp 3))),
   ("L_Knee (Bend)", toFixed1 (calculate_3d_angle (getkp kp 4) (getkp kp 5) (getkp kp 6))),
   ("R_Elbow (Bend)", toFixed1 (calculate_3d_angle (getkp kp 11) (getkp kp 12) (getkp kp 13))),
   ("L_Elbow (Bend)", toFixed1 (calculate_3d_angle (getkp kp 14) (getkp kp 15) (getkp kp 16)))]

/-- The torso-neck vertical entry of `process_all_angles` (`kp.length > 8`). -/
def verticalEntries (kp : Frame) : List (String × ℝ) :=
  if 8 < kp.length then
    [("Torso-Neck (Vertical)", toFixed1 (calculate_vertical_angle (getkp kp 7) (getkp kp 8)))]
  else []

/-- The entries accumulated by `process_all_angles` before its defaulting
pass (bends, vertical, anatomical). -/
def partialEntries (kp : Frame) : List (String × ℝ) :=
  bendEntries kp ++ verticalEntries kp ++ calculate_anatomical_angles kp

/-- `process_all_angles(keypoints)` from `kinematics.js`: `none` models a
missing (undefined) argument.  Fewer than 17 keypoints gives every key the
value `0.0`; otherwise the computed entries are assembled and the final pass
fills every still-missing key of `ANGLE_KEYS` with `0.0`, so the result is a
closed 23-entry schema. -/
def process_all_angles (keypoints : Option Frame) : List (String × ℝ) :=
  match keypoints with
  | none => ANGLE_KEYS.map fun k => (k, 0)
  | some kp =>
    if kp.length < 17 then ANGLE_KEYS.map fun k => (k, 0)
    else ANGLE_KEYS.map fun k => (k, ((partialEntries kp).lookup k).getD 0)

/-- The value stored under key `k` in the result of `process_all_angles`. -/
def angleValue (keypoints : Option Frame) (k : String) : ℝ :=
  ((process_all_angles keypoints).lookup k).getD 0

/-! ### Full-precision twins

For each entry-producing block, the same computation without the final
`toFixed(1)` rounding.  `fullAngle` is the full-floating-point-precision value
of an angle; the claims about rounding placement compare the stored entries
against these. -/

/-- `waistEntries` without the rounding of the stored values. -/
def waistRaw (kp : Frame) : List (String × ℝ) :=
  if 8 < kp.length then
    match getkp kp 7, getkp kp 0, getkp kp 1, getkp kp 4 with
    | some p7, some p0, some p1, some p4 =>
      let proximal_y := (p7.sub p0).normalize
      let x_axis_ref := (p1.sub p4).normalize
      if 1 / 1000000000 < proximal_y.lengthSq ∧ 1 / 1000000000 < x_axis_ref.lengthSq then
        match getkp kp 8 with
        | some p8 =>
          let z_axis_local := (proximal_y.cross x_axis_ref).normalize
          let x_axis_local := (proximal_y.cross z_axis_local).normalize
          let R_local := Mat3.makeBasis x_axis_local proximal_y z_axis_local
          let torso_y := (p8.sub p7).normalize
          if 1 / 1000000000 < torso_y.lengthSq then
            let z_axis_torso := (torso_y.cross x_axis_ref).normalize
            let x_axis_torso := (torso_y.cross z_axis_torso).normalize
            let R_torso := Mat3.makeBasis x_axis_torso torso_y z_axis_torso
            let R_relative := R_torso.mul R_local.inv
            let e := rotation_matrix_to_euler_angles R_relative
            [("Waist (X-Axis Rotation)", e.1),
             ("Waist (Y-Axis Rotation)", e.2.1),
             ("Waist (Z-Axis Rotation)", e.2.2)]
          else []
        | none => []
      else []
    | _, _, _, _ => []
  else []

/-- `neckEntries` without the rounding of the stored values. -/
def neckRaw (kp : Frame) : List (String × ℝ) :=
  if 9 < kp.length then
    match getkp kp 7, getkp kp 8, getkp kp 9 with
    | some p7, some p8, some p9 =>
      let e := rotation_matrix_to_euler_angles
        (compute_rotation_matrix (p7.sub p8) (p9.sub p8))
      [("Neck (X-Axis Rotation)", e.1),
       ("Neck (Y-Axis Rotation)", e.2.1),
       ("Neck (Z-Axis Rotation)", e.2.2)]
    | _, _, _ => []
  else []

/-- `rShoulderEntries` without the rounding of the stored values. -/
def rShoulderRaw (kp : Frame) : List (String × ℝ) :=
  if 12 < kp.length then
    match getkp kp 8, getkp kp 11, getkp kp 12 with
    | some p8, some p11, some p12 =>
      let e := rotation_matrix_to_euler_angles
        (compute_rotation_matrix (p8.sub p11) (p12.sub p11))
      [("R Shoulder (X-Axis Rotation)", e.1),
       ("R Shoulder (Y-Axis Rotation)", e.2.1),
       ("R Shoulder (Z-Axis Rotation)", e.2.2)]
    | _, _, _ => []
  else []

/-- `lShoulderEntries` without the rounding of the stored values. -/
def lShoulderRaw (kp : Frame) : List (String × ℝ) :=
  if 15 < kp.length then
    match getkp kp 8, getkp kp 14, getkp kp 15 with
    | some p8, some p14, some p15 =>
      let e := rotation_matrix_to_euler_angles
        (compute_rotation_matrix (p8.sub p14) (p15.sub p14))
      [("L Shoulder (X-Axis Rotation)", e.1),
       ("L Shoulder (Y-Axis Rotation)", -e.2.1),
       ("L Shoulder (Z-Axis Rotation)", -e.2.2)]
    | _, _, _ => []
  else []

/-- `rHipEntries` without the rounding of the stored values. -/
def rHipRaw (kp : Frame) : List (String × ℝ) :=
  if 2 < kp.length then
    match getkp kp 0, getkp kp 1, getkp kp 2 with
    | some p0, some p1, some p2 =>
      let e := rotation_matrix_to_euler_angles
        (compute_rotation_matrix (p0.sub p1) (p2.sub p1))
      [("R Hip (X-Axis Rotation)", e.1),
       ("R Hip (Y-Axis Rotation)", e.2.1),
       ("R Hip (Z-Axis Rotation)", e.2.2)]
    | _, _, _ => []
  else []

/-- `lHipEntries` without the rounding of the stored values. -/
def lHipRaw (kp : Frame) : List (String × ℝ) :=
  if 5 < kp.length then
    match getkp kp 0, getkp kp 4, getkp kp 5 with
    | some p0, some p4, some p5 =>
      let e := rotation_matrix_to_euler_angles
        (compute_rotation_matrix (p0.sub p4) (p5.sub p4))
      [("L Hip (X-Axis Rotation)", e.1),
       ("L Hip (Y-Axis Rotation)", -e.2.1),
       ("L Hip (Z-Axis Rotation)", -e.2.2)]
    | _, _, _ => []
  else []

/-- `calculate_anatomical_angles` without the rounding of the stored values. -/
def anatomicalRaw (kp : Frame) : List (String × ℝ) :=
  waistRaw kp ++ neckRaw kp ++ rShoulderRaw kp ++ lShoulderRaw kp
    ++ rHipRaw kp ++ lHipRaw kp

/-- `bendEntries` without the rounding of the stored values. -/
def bendRaw (kp : Frame) : List (String × ℝ) :=
  [("R_Knee (Bend)", calculate_3d_angle (getkp kp 1) (getkp kp 2) (getkp kp 3)),
   ("L_Knee (Bend)", calculate_3d_angle (getkp kp 4) (getkp kp 5) (getkp kp 6)),
   ("R_Elbow (Bend)", calculate_3d_angle (getkp kp 11) (getkp kp 12) (getkp kp 13)),
   ("L_Elbow (Bend)", calculate_3d_angle (getkp kp 14) (getkp kp 15) (getkp kp 16))]

/-- `verticalEntries` without the rounding of the stored value. -/
def verticalRaw (kp : Frame) : List (String × ℝ) :=
  if 8 < kp.length then
    [("Torso-Neck (Vertical)", calculate_vertical_angle (getkp kp 7) (getkp kp 8))]
  else []

/-- The pre-defaulting entry list at full precision. -/
def partialRaw (kp : Frame) : List (String × ℝ) :=
  bendRaw kp ++ verticalRaw kp ++ anatomicalRaw kp

/-- The full-floating-point-precision value of the angle stored under key `k`
for a frame with enough keypoints (`0` for a key its guards leave unset). -/
def fullAngle (kp : Frame) (k : String) : ℝ :=
  ((partialRaw kp).lookup k).getD 0

end kinematics

/-- The three waist angle names. -/
def waistKeys : List String :=
  ["Waist (X-Axis Rotation)", "Waist (Y-Axis Rotation)", "Waist (Z-Axis Rotation)"]

/-- The spec's `angleBetween(A, B, C)` written out from its own words: with
`v1 = A - B` and `v2 = C - B`, the value is
`acos(clamp(dot(v1,v2) / (|v1| |v2|), -1, 1))` in degrees — with the guard
amended to test the product of the lengths against `1e-9` (the source guard),
rather than each squared length separately. -/
def angleBetween_spec (A B C : Vec3) : ℝ :=
  let n1 := Real.sqrt ((A.x - B.x) ^ 2 + (A.y - B.y) ^ 2 + (A.z - B.z) ^ 2)
  let n2 := Real.sqrt ((C.x - B.x) ^ 2 + (C.y - B.y) ^ 2 + (C.z - B.z) ^ 2)
  let d := (A.x - B.x) * (C.x - B.x) + (A.y - B.y) * (C.y - B.y) + (A.z - B.z) * (C.z - B.z)
  if n1 * n2 < 1 / 1000000000 then 0
  else Real.arccos (clamp (d / (n1 * n2)) (-1) 1) * 180 / Real.pi

/-- Reflection across the sagittal plane `x = 0`. -/
def mirV (v : Vec3) : Vec3 := ⟨-v.x, v.y, v.z⟩

/-- The negated reflection `-diag(-1,1,1)`, i.e. `v ↦ (v.x, -v.y, -v.z)`
(cross products of two reflected vectors land here). -/
def mirW (v : Vec3) : Vec3 := ⟨v.x, -v.y, -v.z⟩

/-- Conjugation of a rotation block by the sagittal reflection
`diag(-1,1,1)`: negates the off-diagonal entries of the first row and first
column. -/
def mirM (a : Mat3) : Mat3 :=
  ⟨a.m11, -a.m12, -a.m13, -a.m21, a.m22, a.m23, -a.m31, a.m32, a.m33⟩

/-- The integer sequence `2 cos (n θ) · 5^n` for `cos θ = 3/5`
(`a_{n+2} = 6 a_{n+1} - 25 a_n`), used to show that the knee angle of
`frameKnee` is an irrational number of degrees. -/
def nivA : ℕ → ℤ
  | 0 => 2
  | 1 => 6
  | n + 2 => 6 * nivA (n + 1) - 25 * nivA n

end

/-! ## Activity segmentation (`StaticDashboard.jsx`)

The scoring / smoothing / region-extraction steps are arithmetic only, so they
are stated over an arbitrary linear ordered field; the dashboard instantiates
them at the angle values (reals), and counterexamples instantiate them at `ℚ`
so they can be evaluated by `decide`. -/

section Segmentation

variable {α : Type} [LinearOrderedField α]

/-- The major joint channels:
`ANGLE_KEYS.filter(k => k.includes('Hip') || k.includes('Knee') || k.includes('Shoulder') || k.includes('Elbow'))`. -/
def majorJointKeys : List String :=
  ANGLE_KEYS.filter fun k =>
    k.containsSubstr "Hip" || k.containsSubstr "Knee"
      || k.containsSubstr "Shoulder" || k.containsSubstr "Elbow"

/-- Step 2 of `handleFileUpload`: `rawScore[0] = 0` and, for `i ≥ 1`,
`rawScore[i] = Σ_k |data[k][i] - data[k][i-1]|` over the major joint keys. -/
def rawScore (dataF : String → List α) (frameCount : ℕ) : List α :=
  (List.range frameCount).map fun i =>
    if i = 0 then 0
    else majorJointKeys.foldl
      (fun acc k => acc + |(dataF k).getD i 0 - (dataF k).getD (i - 1) 0|) 0

/-- Step 3: symmetric moving average with half-window `⌊w / 2⌋`; the window is
clipped to `[max(0, i-half), min(n-1, i+half)]` at the boundaries. -/
def smoothScore (w : ℕ) (raw : List α) : List α :=
  let half := w / 2
  (List.range raw.length).map fun i =>
    let s := i - half
    let e := min (raw.length - 1) (i + half)
    (((List.range (e + 1 - s)).map fun j => raw.getD (s + j) 0).foldl (· + ·) 0)
      / ((e - s + 1 : ℕ) : α)

/-- The state machine of step 4 (`for` loop of the region scan): `st` is the
`startFrame` sentinel (`none` for `-1`), `i` the loop index, `regs` the
regions pushed so far.  A region is pushed as `(startFrame, i)` when the score
at `i` drops to the threshold or below and the open run has length
`i - startFrame ≥ minActiveFrames`. -/
def regionLoop (thr : α) (minA : ℕ) :
    List α → ℕ → Option ℕ → List (ℕ × ℕ) → Option ℕ × List (ℕ × ℕ)
  | [], _, st, regs => (st, regs)
  | v :: rest, i, st, regs =>
    match st with
    | none =>
      if thr < v then regionLoop thr minA rest (i + 1) (some i) regs
      else regionLoop thr minA rest (i + 1) none regs
    | some s =>
      if thr < v then regionLoop thr minA rest (i + 1) (some s) regs
      else if minA ≤ i - s then regionLoop thr minA rest (i + 1) none (regs ++ [(s, i)])
      else regionLoop thr minA rest (i + 1) none regs

/-- Step 4 of `handleFileUpload`: scan the smoothed score and close a region
still open at the end of the series at the last frame index, subject to the
same minimum-length filter. -/
def detectRegions (smoothed : List α) (thr : α) (minA : ℕ) : List (ℕ × ℕ) :=
  match (regionLoop thr minA smoothed 0 none []).1 with
  | some s =>
    if minA ≤ smoothed.length - s then
      (regionLoop thr minA smoothed 0 none []).2 ++ [(s, smoothed.length - 1)]
    else (regionLoop thr minA smoothed 0 none []).2
  | none => (regionLoop thr minA smoothed 0 none []).2

/-- `MOVING_AVERAGE_WINDOW` from `StaticDashboard.jsx`. -/
def MOVING_AVERAGE_WINDOW : ℕ := 25

/-- `ACTIVITY_THRESHOLD` from `StaticDashboard.jsx`. -/
def ACTIVITY_THRESHOLD : ℚ := 30

/-- `MIN_ACTIVE_FRAMES` from `StaticDashboard.jsx`. -/
def MIN_ACTIVE_FRAMES : ℕ := 15

/-- Modelled from the spec: configuration validation of the activity
segmenter.  The source (`StaticDashboard.jsx`) only hard-codes the valid
constants 25 / 30 / 15 and contains no validation code; the spec's error
taxonomy requires a negative window size or a non-positive
`minActiveFrames` to be rejected at configuration time. -/
def validateConfig (windowSize minActiveFrames : ℤ) : Bool :=
  decide (0 ≤ windowSize) && decide (0 < minActiveFrames)

/-- Modelled from the spec: the segmenter behind its configuration check —
an invalid configuration is a hard error produced before any frame of the
series is touched. -/
def runSegmenter (windowSize minActiveFrames : ℤ) (thr : α) (series : List α) :
    Except String (List α × List (ℕ × ℕ)) :=
  if validateConfig windowSize minActiveFrames then
    let sm := smoothScore windowSize.toNat series
    Except.ok (sm, detectRegions sm thr minActiveFrames.toNat)
  else Except.error "invalid configuration"

end Segmentation

/-! ## Angle time-series accumulators -/

noncomputable section

/-- The empty accumulator: `ANGLE_KEYS.reduce((acc, key) => ({...acc, [key]: []}), {})`
maps every angle key to an empty sequence (absent keys also read as empty). -/
def emptyAccum : String → List ℝ := fun _ => []

/-- One step of the bulk loader (`Dashboard.jsx` / `StaticDashboard.jsx`):
`ANGLE_KEYS.forEach(key => allAngleData[key].push(parseFloat(angles[key])))`
for the processed frame. -/
def bulkStep (acc : String → List ℝ) (fr : Option Frame) : String → List ℝ :=
  fun k => if k ∈ ANGLE_KEYS then acc k ++ [kinematics.angleValue fr k] else acc k

/-- Bulk (one-pass) population: `data.forEach(frame => ...)` over the uploaded
frame list, taking `frame.predictions?.[0]?.keypoints` for each frame. -/
def bulkLoad (frames : List (Option Frame)) : String → List ℝ :=
  frames.foldl bulkStep emptyAccum

/-- One step of the streaming accumulator (live-tracking `onmessage`):
`newData[key] = [...(prevData[key] || []), frameData.angles[key] || 0]` for
every `key` of `ANGLE_KEYS`; the fresh object holds exactly those keys. -/
def streamStep (acc : String → List ℝ) (m : String → Option ℝ) : String → List ℝ :=
  fun k => if k ∈ ANGLE_KEYS then acc k ++ [(m k).getD 0] else []

/-- Streaming population: one `onmessage` append per arriving frame. -/
def streamLoad (msgs : List (String → Option ℝ)) : String → List ℝ :=
  msgs.foldl streamStep emptyAccum

/-- The full static analysis pipeline of `StaticDashboard.handleFileUpload`:
process all frames into per-angle series, derive the raw activity score, the
smoothed score and the active regions. -/
def staticPipeline (frames : List (Option Frame)) (w : ℕ) (thr : ℝ) (minA : ℕ) :
    List ℝ × List ℝ × List (ℕ × ℕ) :=
  let dataF := bulkLoad frames
  let raw := rawScore dataF frames.length
  let sm := smoothScore w raw
  (raw, sm, detectRegions sm thr minA)

/-! ### Concrete frames used by counterexamples and witnesses -/

/-- A 17-keypoint frame whose right-knee triple is `A = (3,4,0)`, `B = 0`,
`C = (5,0,0)`, so the knee bend is `acos(3/5)` in degrees — an irrational
number of degrees, hence visibly changed by rounding. -/
def frameKnee : Frame :=
  [some ⟨0, 0, 0⟩, some ⟨3, 4, 0⟩, some ⟨0, 0, 0⟩, some ⟨5, 0, 0⟩,
   some ⟨0, 0, 0⟩, some ⟨0, 0, 0⟩, some ⟨0, 0, 0⟩, some ⟨0, 0, 0⟩,
   some ⟨0, 0, 0⟩, some ⟨0, 0, 0⟩, some ⟨0, 0, 0⟩, some ⟨0, 0, 0⟩,
   some ⟨0, 0, 0⟩, some ⟨0, 0, 0⟩, some ⟨0, 0, 0⟩, some ⟨0, 0, 0⟩,
   some ⟨0, 0, 0⟩]

/-- A 17-keypoint frame whose pelvis-to-torso vector is `(1e-5, 0, 0)`:
its squared length `1e-10` is below the `1e-9` epsilon, yet after
normalization it is a unit vector, so the waist computation proceeds and
produces a waist Y rotation of `-90` degrees. -/
def frameWaist : Frame :=
  [some ⟨0, 0, 0⟩, some ⟨0, 1, 0⟩, some ⟨0, 0, 0⟩, some ⟨0, 0, 0⟩,
   some ⟨0, 0, 0⟩, some ⟨0, 0, 0⟩, some ⟨0, 0, 0⟩, some ⟨1 / 100000, 0, 0⟩,
   some ⟨1 / 100000, 0, 1⟩, some ⟨0, 0, 0⟩, some ⟨0, 0, 0⟩, some ⟨0, 0, 0⟩,
   some ⟨0, 0, 0⟩, some ⟨0, 0, 0⟩, some ⟨0, 0, 0⟩, some ⟨0, 0, 0⟩,
   some ⟨0, 0, 0⟩]

/-- A mirror-symmetric 17-keypoint frame: the central keypoints (pelvis,
torso, neck, head, head-top) lie on the plane `x = 0` and each left-side
keypoint is the sagittal mirror image of its right-side partner.  The
shoulder and hip constructions are non-degenerate and give a `-90`-degree
Y (and Z) rotation on both sides. -/
def frameMirror : Frame :=
  [some ⟨0, 0, 0⟩, some ⟨1, -1, 0⟩, some ⟨1, -2, 0⟩, some ⟨1, -3, 0⟩,
   some ⟨-1, -1, 0⟩, some ⟨-1, -2, 0⟩, some ⟨-1, -3, 0⟩, some ⟨0, 1, 0⟩,
   some ⟨0, 1, 0⟩, some ⟨0, 2, 0⟩, some ⟨0, 3, 0⟩, some ⟨1, 0, 0⟩,
   some ⟨1, -1, 0⟩, some ⟨1, -2, 0⟩, some ⟨-1, 0, 0⟩, some ⟨-1, -1, 0⟩,
   some ⟨-1, -2, 0⟩]

end

attribute [ext] Vec3 Mat3

/-! ## Helper lemmas -/

section Helpers

open kinematics

lemma lookup_map_value (f : ℝ → ℝ) (k : String) :
    ∀ l : List (String × ℝ),
      (l.map fun p => (p.1, f p.2)).lookup k = (l.lookup k).map f
  | [] => rfl
  | (a, b) :: t => by
    cases hka : (k == a) <;>
      simp [List.lookup, hka, lookup_map_value f k t]

lemma lookup_keys_map (g : String → ℝ) (k : String) :
    ∀ keys : List String, k ∈ keys →
      ((keys.map fun x => (x, g x)).lookup k) = some (g k)
  | [], h => by cases h
  | a :: t, h => by
    by_cases hka : k = a
    · subst hka; simp [List.lookup]
    · have ht : k ∈ t := by
        rcases List.mem_cons.mp h with h1 | h1
        · exact absurd h1 hka
        · exact h1
      have hb : (k == a) = false := beq_eq_false_iff_ne.mpr hka
      simpa [List.lookup, hb] using lookup_keys_map g k t ht

lemma toFixed1_zero : toFixed1 0 = 0 := by
  unfold toFixed1
  norm_num

lemma toFixed1_intCast (m : ℤ) : toFixed1 (m : ℝ) = m := by
  unfold toFixed1
  have h : (10 : ℝ) * m + 1 / 2 = ((1 : ℝ) / 2) + ((10 * m : ℤ) : ℝ) := by
    push_cast; ring
  rw [h, Int.floor_add_int]
  norm_num

/-- If `toFixed1` fixes `v`, then `v` is rational. -/
lemma rational_of_toFixed1_fix {v : ℝ} (h : toFixed1 v = v) : ¬ Irrational v := by
  intro hv
  refine hv ⟨((⌊10 * v + 1 / 2⌋ : ℤ) : ℚ) / 10, ?_⟩
  push_cast
  conv_rhs => rw [← h]
  unfold toFixed1
  ring

/-- `process_all_angles` on a present keypoint list. -/
lemma process_all_angles_some (kp : Frame) :
    process_all_angles (some kp) =
      if kp.length < 17 then ANGLE_KEYS.map (fun k => (k, (0 : ℝ)))
      else ANGLE_KEYS.map fun k => (k, ((partialEntries kp).lookup k).getD 0) := rfl

lemma len_eval (v : Vec3) (a : ℝ) (h : v.lengthSq = a * a) (ha : 0 ≤ a) :
    v.len = a := by
  rw [Vec3.len, h, Real.sqrt_mul_self ha]

lemma normalize_eval (v : Vec3) (a : ℝ) (h : v.len = a) (ha : ¬a = 0) :
    v.normalize = ⟨1 / a * v.x, 1 / a * v.y, 1 / a * v.z⟩ := by
  rw [Vec3.normalize, h, if_neg ha]; rfl

lemma angle_keys_length : ANGLE_KEYS.length = 23 := by decide

lemma calculate_3d_angle_some (a b c : Vec3) :
    kinematics.calculate_3d_angle (some a) (some b) (some c) =
      if (a.sub b).len * (c.sub b).len < 1 / 1000000000 then 0
      else Real.arccos (clamp ((a.sub b).dot (c.sub b)
        / ((a.sub b).len * (c.sub b).len)) (-1) 1) * 180 / Real.pi := rfl

/-- The value-rounding map applied to an entry. -/
lemma bendEntries_map (kp : Frame) :
    kinematics.bendEntries kp
      = (kinematics.bendRaw kp).map fun p => (p.1, toFixed1 p.2) := rfl

lemma verticalEntries_map (kp : Frame) :
    kinematics.verticalEntries kp
      = (kinematics.verticalRaw kp).map fun p => (p.1, toFixed1 p.2) := by
  unfold kinematics.verticalEntries kinematics.verticalRaw
  split <;> rfl

lemma waistEntries_map (kp : Frame) :
    kinematics.waistEntries kp
      = (kinematics.waistRaw kp).map fun p => (p.1, toFixed1 p.2) := by
  unfold kinematics.waistEntries kinematics.waistRaw
  dsimp only
  repeat' split
  all_goals rfl

lemma neckEntries_map (kp : Frame) :
    kinematics.neckEntries kp
      = (kinematics.neckRaw kp).map fun p => (p.1, toFixed1 p.2) := by
  unfold kinematics.neckEntries kinematics.neckRaw
  repeat' split
  all_goals rfl

lemma rShoulderEntries_map (kp : Frame) :
    kinematics.rShoulderEntries kp
      = (kinematics.rShoulderRaw kp).map fun p => (p.1, toFixed1 p.2) := by
  unfold kinematics.rShoulderEntries kinematics.rShoulderRaw
  repeat' split
  all_goals rfl

lemma lShoulderEntries_map (kp : Frame) :
    kinematics.lShoulderEntries kp
      = (kinematics.lShoulderRaw kp).map fun p => (p.1, toFixed1 p.2) := by
  unfold kinematics.lShoulderEntries kinematics.lShoulderRaw
  repeat' split
  all_goals rfl

lemma rHipEntries_map (kp : Frame) :
    kinematics.rHipEntries kp
      = (kinematics.rHipRaw kp).map fun p => (p.1, toFixed1 p.2) := by
  unfold kinematics.rHipEntries kinematics.rHipRaw
  repeat' split
  all_goals rfl

lemma lHipEntries_map (kp : Frame) :
    kinematics.lHipEntries kp
      = (kinematics.lHipRaw kp).map fun p => (p.1, toFixed1 p.2) := by
  unfold kinematics.lHipEntries kinematics.lHipRaw
  repeat' split
  all_goals rfl

/-- The pre-defaulting entry list is exactly the full-precision entry list
with every stored value rounded to one decimal. -/
lemma partialEntries_map (kp : Frame) :
    kinematics.partialEntries kp
      = (kinematics.partialRaw kp).map fun p => (p.1, toFixed1 p.2) := by
  unfold kinematics.partialEntries kinematics.partialRaw
    kinematics.calculate_anatomical_angles kinematics.anatomicalRaw
  rw [bendEntries_map, verticalEntries_map, waistEntries_map, neckEntries_map,
    rShoulderEntries_map, lShoulderEntries_map, rHipEntries_map, lHipEntries_map]
  simp [List.map_append]

/-- Core correspondence: for a frame with at least 17 keypoints, each stored
angle value is the one-decimal rounding of the full-precision value. -/
lemma angleValue_full (kp : Frame) (h : 17 ≤ kp.length) (k : String)
    (hk : k ∈ ANGLE_KEYS) :
    kinematics.angleValue (some kp) k = toFixed1 (kinematics.fullAngle kp k) := by
  unfold kinematics.angleValue
  rw [process_all_angles_some, if_neg (by omega),
    lookup_keys_map (fun k => ((kinematics.partialEntries kp).lookup k).getD 0) k ANGLE_KEYS hk,
    Option.getD_some, partialEntries_map kp, lookup_map_value]
  unfold kinematics.fullAngle
  cases (kinematics.partialRaw kp).lookup k with
  | none => simp [toFixed1_zero]
  | some v => simp

lemma nivA_cos {θ : ℝ} (hcos : Real.cos θ = 3 / 5) :
    ∀ n : ℕ, (5 : ℝ) ^ n * (2 * Real.cos (n * θ)) = nivA n := by
  intro n
  induction n using Nat.twoStepInduction with
  | zero => norm_num [nivA]
  | one => norm_num [nivA, hcos]
  | more n ih0 ih1 =>
    have hsplit : ((n + 2 : ℕ) : ℝ) * θ = ((n + 1 : ℕ) : ℝ) * θ + θ := by
      push_cast; ring
    have hsub : ((n + 1 : ℕ) : ℝ) * θ - θ = (n : ℕ) * θ := by
      push_cast; ring
    have hadd := Real.cos_add (((n + 1 : ℕ) : ℝ) * θ) θ
    have hsub2 := Real.cos_sub (((n + 1 : ℕ) : ℝ) * θ) θ
    rw [hsub] at hsub2
    have hiden : Real.cos (((n + 1 : ℕ) : ℝ) * θ + θ)
        = 2 * Real.cos θ * Real.cos (((n + 1 : ℕ) : ℝ) * θ) - Real.cos ((n : ℕ) * θ) := by
      linarith [hadd, hsub2]
    have e1 : (nivA (n + 2) : ℝ) = 6 * nivA (n + 1) - 25 * nivA n := by
      have : nivA (n + 2) = 6 * nivA (n + 1) - 25 * nivA n := rfl
      rw [this]; push_cast; ring
    rw [hsplit, hiden, hcos, e1, ← ih0, ← ih1]
    ring

lemma nivA_mod (n : ℕ) : ∃ k : ℤ, nivA (n + 1) = 5 * k + 1 := by
  induction n with
  | zero => exact ⟨1, by norm_num [nivA]⟩
  | succ n ih =>
    obtain ⟨k, hk⟩ := ih
    refine ⟨6 * k + 1 - 5 * nivA n, ?_⟩
    have h2 : nivA (n + 2) = 6 * nivA (n + 1) - 25 * nivA n := rfl
    rw [h2, hk]; ring

/-- The degree measure of `arccos (3/5)` is irrational (a Niven-style
argument: `2 cos(n arccos(3/5)) 5^n` is an integer that is never divisible
by 5, while a rational degree measure would force `cos` of an integer
multiple of `π` into the sequence). -/
lemma knee_angle_irrational : Irrational (Real.arccos (3 / 5) * 180 / Real.pi) := by
  have hcos : Real.cos (Real.arccos (3 / 5)) = 3 / 5 :=
    Real.cos_arccos (by norm_num) (by norm_num)
  rintro ⟨q, hq⟩
  have hpi := Real.pi_ne_zero
  have hθq : Real.arccos (3 / 5) = (q : ℝ) * Real.pi / 180 := by
    field_simp at hq
    field_simp
    linarith [hq]
  set r : ℚ := q / 180 with hr
  have hθr : Real.arccos (3 / 5) = (r : ℝ) * Real.pi := by
    rw [hθq, hr]; push_cast; ring
  have hden : ((r.den : ℚ)) * r = (r.num : ℚ) := by
    have h1 := Rat.num_div_den r
    have hd0 : ((r.den : ℚ)) ≠ 0 := by
      exact_mod_cast r.den_ne_zero
    rw [div_eq_iff hd0] at h1
    rw [mul_comm]
    exact h1.symm
  have hmul : ((r.den : ℕ) : ℝ) * Real.arccos (3 / 5) = ((r.num : ℤ) : ℝ) * Real.pi := by
    have hcast : ((r.den : ℚ) : ℝ) * ((r : ℚ) : ℝ) = ((r.num : ℚ) : ℝ) := by
      rw [← Rat.cast_mul, hden]
    rw [hθr]
    calc ((r.den : ℕ) : ℝ) * ((r : ℝ) * Real.pi)
        = (((r.den : ℚ) : ℝ) * ((r : ℚ) : ℝ)) * Real.pi := by push_cast; ring
      _ = ((r.num : ℤ) : ℝ) * Real.pi := by rw [hcast]; push_cast; ring
  have hkey := nivA_cos hcos r.den
  have habs : |Real.cos (((r.den : ℕ) : ℝ) * Real.arccos (3 / 5))| = 1 := by
    rw [hmul]
    exact Real.abs_cos_int_mul_pi r.num
  have h5 : (0 : ℝ) < 5 ^ r.den := by positivity
  have habs2 : |(nivA r.den : ℝ)| = 2 * 5 ^ r.den := by
    rw [← hkey, abs_mul, abs_of_pos h5, abs_mul, habs]
    norm_num
    ring
  have hZ : |nivA r.den| = 2 * 5 ^ r.den := by exact_mod_cast habs2
  have hden1 : 1 ≤ r.den := r.pos
  obtain ⟨k, hk⟩ := nivA_mod (r.den - 1)
  have hsubst : r.den - 1 + 1 = r.den := by omega
  rw [hsubst] at hk
  have hpow : (5 : ℤ) ^ r.den = 5 * 5 ^ (r.den - 1) := by
    calc (5 : ℤ) ^ r.den = 5 ^ (r.den - 1 + 1) := by rw [hsubst]
      _ = 5 ^ (r.den - 1) * 5 := pow_succ 5 (r.den - 1)
      _ = 5 * 5 ^ (r.den - 1) := by ring
  rcases abs_cases (nivA r.den) with ⟨he, _⟩ | ⟨he, _⟩
  · have hfin : nivA r.den = 2 * 5 ^ r.den := by rw [← he]; exact hZ
    rw [hk, hpow] at hfin
    omega
  · have hfin : -nivA r.den = 2 * 5 ^ r.den := by rw [← he]; exact hZ
    rw [hk, hpow] at hfin
    omega

lemma lookup_append_none {k : String} :
    ∀ l1 l2 : List (String × ℝ), l1.lookup k = none →
      (l1 ++ l2).lookup k = l2.lookup k
  | [], _, _ => rfl
  | (a, b) :: t, l2, h => by
    cases hka : (k == a) with
    | true => simp [List.lookup, hka] at h
    | false =>
      simp only [List.lookup, hka] at h
      simpa [List.lookup, hka] using lookup_append_none t l2 h

lemma lookup_append_some {k : String} {v : ℝ} :
    ∀ l1 l2 : List (String × ℝ), l1.lookup k = some v →
      (l1 ++ l2).lookup k = some v
  | [], _, h => by simp [List.lookup] at h
  | (a, b) :: t, l2, h => by
    cases hka : (k == a) with
    | true =>
      simp only [List.lookup, hka] at h
      simpa [List.lookup, hka] using h
    | false =>
      simp only [List.lookup, hka] at h
      simpa [List.lookup, hka] using lookup_append_some t l2 h

lemma bendRaw_lookup_none (kp : Frame) (k : String)
    (h1 : (k == "R_Knee (Bend)") = false) (h2 : (k == "L_Knee (Bend)") = false)
    (h3 : (k == "R_Elbow (Bend)") = false) (h4 : (k == "L_Elbow (Bend)") = false) :
    (kinematics.bendRaw kp).lookup k = none := by
  simp [kinematics.bendRaw, List.lookup, h1, h2, h3, h4]

lemma verticalRaw_lookup_none (kp : Frame) (k : String)
    (h1 : (k == "Torso-Neck (Vertical)") = false) :
    (kinematics.verticalRaw kp).lookup k = none := by
  unfold kinematics.verticalRaw
  split
  all_goals simp [List.lookup, h1]

lemma waistRaw_lookup_none (kp : Frame) (k : String)
    (h1 : (k == "Waist (X-Axis Rotation)") = false)
    (h2 : (k == "Waist (Y-Axis Rotation)") = false)
    (h3 : (k == "Waist (Z-Axis Rotation)") = false) :
    (kinematics.waistRaw kp).lookup k = none := by
  unfold kinematics.waistRaw
  dsimp only
  repeat' split
  all_goals simp [List.lookup, h1, h2, h3]

lemma neckRaw_lookup_none (kp : Frame) (k : String)
    (h1 : (k == "Neck (X-Axis Rotation)") = false)
    (h2 : (k == "Neck (Y-Axis Rotation)") = false)
    (h3 : (k == "Neck (Z-Axis Rotation)") = false) :
    (kinematics.neckRaw kp).lookup k = none := by
  unfold kinematics.neckRaw
  repeat' split
  all_goals simp [List.lookup, h1, h2, h3]

lemma rShoulderRaw_lookup_none (kp : Frame) (k : String)
    (h1 : (k == "R Shoulder (X-Axis Rotation)") = false)
    (h2 : (k == "R Shoulder (Y-Axis Rotation)") = false)
    (h3 : (k == "R Shoulder (Z-Axis Rotation)") = false) :
    (kinematics.rShoulderRaw kp).lookup k = none := by
  unfold kinematics.rShoulderRaw
  repeat' split
  all_goals simp [List.lookup, h1, h2, h3]

lemma lShoulderRaw_lookup_none (kp : Frame) (k : String)
    (h1 : (k == "L Shoulder (X-Axis Rotation)") = false)
    (h2 : (k == "L Shoulder (Y-Axis Rotation)") = false)
    (h3 : (k == "L Shoulder (Z-Axis Rotation)") = false) :
    (kinematics.lShoulderRaw kp).lookup k = none := by
  unfold kinematics.lShoulderRaw
  repeat' split
  all_goals simp [List.lookup, h1, h2, h3]

lemma rHipRaw_lookup_none (kp : Frame) (k : String)
    (h1 : (k == "R Hip (X-Axis Rotation)") = false)
    (h2 : (k == "R Hip (Y-Axis Rotation)") = false)
    (h3 : (k == "R Hip (Z-Axis Rotation)") = false) :
    (kinematics.rHipRaw kp).lookup k = none := by
  unfold kinematics.rHipRaw
  repeat' split
  all_goals simp [List.lookup, h1, h2, h3]

lemma lHipRaw_lookup_none (kp : Frame) (k : String)
    (h1 : (k == "L Hip (X-Axis Rotation)") = false)
    (h2 : (k == "L Hip (Y-Axis Rotation)") = false)
    (h3 : (k == "L Hip (Z-Axis Rotation)") = false) :
    (kinematics.lHipRaw kp).lookup k = none := by
  unfold kinematics.lHipRaw
  repeat' split
  all_goals simp [List.lookup, h1, h2, h3]

lemma vec_sub_self (v : Vec3) : v.sub v = ⟨0, 0, 0⟩ := by
  ext <;> simp [Vec3.sub]

lemma normalize_zero_vec : (Vec3.mk (0 : ℝ) 0 0).normalize = ⟨0, 0, 0⟩ := by
  unfold Vec3.normalize
  ext <;> simp [Vec3.smul]

lemma lengthSq_zero_vec : (Vec3.mk (0 : ℝ) 0 0).lengthSq = 0 := by
  norm_num [Vec3.lengthSq]

/-- When any vector feeding the waist construction is exactly zero
(pelvis = torso, right hip = left hip, or neck = torso), the waist block
stores nothing. -/
lemma waistRaw_nil (kp : Frame) (p7 p0 p1 p4 p8 : Vec3)
    (h7 : getkp kp 7 = some p7) (h0 : getkp kp 0 = some p0)
    (h1 : getkp kp 1 = some p1) (h4 : getkp kp 4 = some p4)
    (h8 : getkp kp 8 = some p8)
    (hdeg : p7 = p0 ∨ p1 = p4 ∨ p8 = p7) :
    kinematics.waistRaw kp = [] := by
  unfold kinematics.waistRaw
  by_cases hlen : 8 < kp.length
  · rw [if_pos hlen, h7, h0, h1, h4]
    dsimp only
    rcases hdeg with hd | hd | hd
    · rw [if_neg]
      rw [hd, vec_sub_self, normalize_zero_vec, lengthSq_zero_vec]
      intro hcon
      have := hcon.1
      norm_num at this
    · rw [if_neg]
      rw [hd, vec_sub_self, normalize_zero_vec, lengthSq_zero_vec]
      intro hcon
      have := hcon.2
      norm_num at this
    · split
      · rw [h8]
        dsimp only
        rw [if_neg]
        rw [hd, vec_sub_self, normalize_zero_vec, lengthSq_zero_vec]
        norm_num
      · rfl
  · rw [if_neg hlen]

/-- Chaining the per-block skips through the (left-associated) appends of
the anatomical tail. -/
lemma anat_tail_lookup_none (kp : Frame) (k : String)
    (hn : (kinematics.neckRaw kp).lookup k = none)
    (hrs : (kinematics.rShoulderRaw kp).lookup k = none)
    (hls : (kinematics.lShoulderRaw kp).lookup k = none)
    (hrh : (kinematics.rHipRaw kp).lookup k = none)
    (hlh : (kinematics.lHipRaw kp).lookup k = none) :
    (kinematics.neckRaw kp ++ kinematics.rShoulderRaw kp ++ kinematics.lShoulderRaw kp
      ++ kinematics.rHipRaw kp ++ kinematics.lHipRaw kp).lookup k = none := by
  have s1 : (kinematics.neckRaw kp ++ kinematics.rShoulderRaw kp).lookup k = none := by
    rw [lookup_append_none _ _ hn]; exact hrs
  have s2 : (kinematics.neckRaw kp ++ kinematics.rShoulderRaw kp
      ++ kinematics.lShoulderRaw kp).lookup k = none := by
    rw [lookup_append_none _ _ s1]; exact hls
  have s3 : (kinematics.neckRaw kp ++ kinematics.rShoulderRaw kp
      ++ kinematics.lShoulderRaw kp ++ kinematics.rHipRaw kp).lookup k = none := by
    rw [lookup_append_none _ _ s2]; exact hrh
  rw [lookup_append_none _ _ s3]; exact hlh

/-- With an empty waist block, the full-precision value of every waist key
is the 0.0 default. -/
lemma fullAngle_waist_zero (kp : Frame) (k : String) (hk : k ∈ waistKeys)
    (hnil : kinematics.waistRaw kp = []) :
    kinematics.fullAngle kp k = 0 := by
  have hmem : k = "Waist (X-Axis Rotation)" ∨ k = "Waist (Y-Axis Rotation)"
      ∨ k = "Waist (Z-Axis Rotation)" := by
    simpa [waistKeys] using hk
  unfold kinematics.fullAngle kinematics.partialRaw kinematics.anatomicalRaw
  rw [hnil, List.nil_append]
  rcases hmem with rfl | rfl | rfl
  · have hbv : (kinematics.bendRaw kp ++ kinematics.verticalRaw kp).lookup
        "Waist (X-Axis Rotation)" = none := by
      rw [lookup_append_none _ _
        (bendRaw_lookup_none kp "Waist (X-Axis Rotation)"
          (by decide) (by decide) (by decide) (by decide))]
      exact verticalRaw_lookup_none kp _ (by decide)
    rw [lookup_append_none _ _ hbv,
      anat_tail_lookup_none kp _
        (neckRaw_lookup_none kp _ (by decide) (by decide) (by decide))
        (rShoulderRaw_lookup_none kp _ (by decide) (by decide) (by decide))
        (lShoulderRaw_lookup_none kp _ (by decide) (by decide) (by decide))
        (rHipRaw_lookup_none kp _ (by decide) (by decide) (by decide))
        (lHipRaw_lookup_none kp _ (by decide) (by decide) (by decide))]
    rfl
  · have hbv : (kinematics.bendRaw kp ++ kinematics.verticalRaw kp).lookup
        "Waist (Y-Axis Rotation)" = none := by
      rw [lookup_append_none _ _
        (bendRaw_lookup_none kp "Waist (Y-Axis Rotation)"
          (by decide) (by decide) (by decide) (by decide))]
      exact verticalRaw_lookup_none kp _ (by decide)
    rw [lookup_append_none _ _ hbv,
      anat_tail_lookup_none kp _
        (neckRaw_lookup_none kp _ (by decide) (by decide) (by decide))
        (rShoulderRaw_lookup_none kp _ (by decide) (by decide) (by decide))
        (lShoulderRaw_lookup_none kp _ (by decide) (by decide) (by decide))
        (rHipRaw_lookup_none kp _ (by decide) (by decide) (by decide))
        (lHipRaw_lookup_none kp _ (by decide) (by decide) (by decide))]
    rfl
  · have hbv : (kinematics.bendRaw kp ++ kinematics.verticalRaw kp).lookup
        "Waist (Z-Axis Rotation)" = none := by
      rw [lookup_append_none _ _
        (bendRaw_lookup_none kp "Waist (Z-Axis Rotation)"
          (by decide) (by decide) (by decide) (by decide))]
      exact verticalRaw_lookup_none kp _ (by decide)
    rw [lookup_append_none _ _ hbv,
      anat_tail_lookup_none kp _
        (neckRaw_lookup_none kp _ (by decide) (by decide) (by decide))
        (rShoulderRaw_lookup_none kp _ (by decide) (by decide) (by decide))
        (lShoulderRaw_lookup_none kp _ (by decide) (by decide) (by decide))
        (rHipRaw_lookup_none kp _ (by decide) (by decide) (by decide))
        (lHipRaw_lookup_none kp _ (by decide) (by decide) (by decide))]
    rfl

end Helpers

/-! ## Claim theorems -/

section Claims

open kinematics

/-- **C3.**  For every input to `process_all_angles` that is missing
(`none`) or has fewer than 17 keypoints, the result is exactly the 23
entries of `ANGLE_KEYS`, each with value `0.0`. -/
theorem C3_degraded_default (okp : Option Frame)
    (h : ∀ kp, okp = some kp → kp.length < 17) :
    process_all_angles okp = ANGLE_KEYS.map (fun k => (k, (0 : ℝ))) ∧
      (process_all_angles okp).length = 23 := by
  have hz : process_all_angles okp = ANGLE_KEYS.map (fun k => (k, (0 : ℝ))) := by
    cases okp with
    | none => rfl
    | some kp =>
      rw [process_all_angles_some, if_pos (h kp rfl)]
  refine ⟨hz, ?_⟩
  rw [hz, List.length_map, angle_keys_length]

/-- Witness for C3 at a concrete 16-entry frame. -/
theorem C3_degraded_default_witness :
    process_all_angles (some (List.replicate 16 (none : Option Vec3)))
        = ANGLE_KEYS.map (fun k => (k, (0 : ℝ))) ∧
      (process_all_angles (some (List.replicate 16 (none : Option Vec3)))).length = 23 :=
  C3_degraded_default _ (by intro kp hkp; cases hkp; simp)

/-- **C10.**  `calculate_3d_angle` with any missing point and
`calculate_vertical_angle` with any missing endpoint return `0.0` without
raising, and a 17-entry frame (even with individually missing keypoints)
still yields an AngleVector with the complete 23-name key set. -/
theorem C10_missing_keypoints :
    (∀ A B C : Option Vec3, A = none ∨ B = none ∨ C = none →
      calculate_3d_angle A B C = 0) ∧
    (∀ S E : Option Vec3, S = none ∨ E = none →
      calculate_vertical_angle S E = 0) ∧
    (∀ kp : Frame, kp.length = 17 →
      (process_all_angles (some kp)).map Prod.fst = ANGLE_KEYS) := by
  refine ⟨?_, ?_, ?_⟩
  · intro A B C h
    cases A <;> cases B <;> cases C <;> simp_all [calculate_3d_angle]
  · intro S E h
    cases S <;> cases E <;> simp_all [calculate_vertical_angle]
  · intro kp hkp
    rw [process_all_angles_some, if_neg (by omega), List.map_map]
    have hc : (Prod.fst ∘ fun k => (k, ((partialEntries kp).lookup k).getD 0)) = id := rfl
    rw [hc, List.map_id]

/-- Witness for C10 at concrete inputs. -/
theorem C10_missing_keypoints_witness :
    calculate_3d_angle none (some ⟨1, 2, 3⟩) (some ⟨4, 5, 6⟩) = 0 ∧
      calculate_vertical_angle (some ⟨1, 2, 3⟩) none = 0 ∧
      (process_all_angles (some (List.replicate 17 (none : Option Vec3)))).map Prod.fst
        = ANGLE_KEYS :=
  ⟨C10_missing_keypoints.1 _ _ _ (Or.inl rfl),
   C10_missing_keypoints.2.1 _ _ (Or.inr rfl),
   C10_missing_keypoints.2.2 _ (by simp)⟩

/-- **C9.**  The static analysis pipeline is deterministic: two runs over
equal frame lists with equal window size, threshold and minimum-region
parameters produce identical raw score, smoothed score and region lists (the
embedding is a pure function of its inputs: the source keeps all its state in
function-local variables). -/
theorem C9_deterministic (frames1 frames2 : List (Option Frame)) (w : ℕ)
    (thr : ℝ) (minA : ℕ) (h : frames1 = frames2) :
    staticPipeline frames1 w thr minA = staticPipeline frames2 w thr minA := by
  rw [h]

/-- Witness for C9 at a concrete input. -/
theorem C9_deterministic_witness :
    staticPipeline [some frameKnee] MOVING_AVERAGE_WINDOW 30 MIN_ACTIVE_FRAMES
      = staticPipeline [some frameKnee] MOVING_AVERAGE_WINDOW 30 MIN_ACTIVE_FRAMES :=
  C9_deterministic _ _ _ _ _ rfl

/-- **C8.**  (Spec-modelled: the source hard-codes a valid configuration and
contains no validator.)  Every invalid configuration — negative window size
or non-positive `minActiveFrames` — is rejected as a hard error at
configuration time: the segmenter returns the configuration error without
looking at the series, identically for every input series. -/
theorem C8_invalid_config_rejected (w minA : ℤ) (thr : ℚ) (series : List ℚ)
    (h : w < 0 ∨ minA ≤ 0) :
    runSegmenter w minA thr series = Except.error "invalid configuration" ∧
      runSegmenter w minA thr series = runSegmenter w minA thr [] := by
  have hv : validateConfig w minA = false := by
    unfold validateConfig
    rcases h with h | h <;> simp <;> omega
  unfold runSegmenter
  rw [hv]
  exact ⟨rfl, rfl⟩

/-- Witness for C8 at a concrete invalid configuration. -/
theorem C8_invalid_config_rejected_witness :
    runSegmenter (-1) 15 (30 : ℚ) [1, 2, 3] = Except.error "invalid configuration" ∧
      runSegmenter (-1) 15 (30 : ℚ) [1, 2, 3] = runSegmenter (-1) 15 (30 : ℚ) [] :=
  C8_invalid_config_rejected (-1) 15 30 [1, 2, 3] (Or.inl (by norm_num))

lemma bulkLoad_length_aux (k : String) (hk : k ∈ ANGLE_KEYS) :
    ∀ (frames : List (Option Frame)) (acc : String → List ℝ),
      ((frames.foldl bulkStep acc) k).length = (acc k).length + frames.length
  | [], acc => by simp
  | fr :: t, acc => by
    have h2 := bulkLoad_length_aux k hk t (bulkStep acc fr)
    have h3 : (bulkStep acc fr k).length = (acc k).length + 1 := by
      simp [bulkStep, if_pos hk]
    simp only [List.foldl_cons, List.length_cons]
    rw [h2, h3]
    omega

lemma streamLoad_length_aux (k : String) (hk : k ∈ ANGLE_KEYS) :
    ∀ (msgs : List (String → Option ℝ)) (acc : String → List ℝ),
      ((msgs.foldl streamStep acc) k).length = (acc k).length + msgs.length
  | [], acc => by simp
  | m :: t, acc => by
    have h2 := streamLoad_length_aux k hk t (streamStep acc m)
    have h3 : (streamStep acc m k).length = (acc k).length + 1 := by
      simp [streamStep, if_pos hk]
    simp only [List.foldl_cons, List.length_cons]
    rw [h2, h3]
    omega

/-- **C4.**  Both accumulator population modes preserve the lock-step
invariant: after bulk loading any frame list, and after streaming any message
list, every one of the 23 per-angle sequences has length equal to the number
of frames processed; and a single append step (in either mode) extends every
per-angle sequence by exactly one value. -/
theorem C4_lockstep :
    (∀ (frames : List (Option Frame)) (k : String), k ∈ ANGLE_KEYS →
      (bulkLoad frames k).length = frames.length) ∧
    (∀ (msgs : List (String → Option ℝ)) (k : String), k ∈ ANGLE_KEYS →
      (streamLoad msgs k).length = msgs.length) ∧
    (∀ (acc : String → List ℝ) (fr : Option Frame) (k : String), k ∈ ANGLE_KEYS →
      (bulkStep acc fr k).length = (acc k).length + 1) ∧
    (∀ (acc : String → List ℝ) (m : String → Option ℝ) (k : String), k ∈ ANGLE_KEYS →
      (streamStep acc m k).length = (acc k).length + 1) := by
  refine ⟨?_, ?_, ?_, ?_⟩
  · intro frames k hk
    have := bulkLoad_length_aux k hk frames emptyAccum
    simpa [bulkLoad, emptyAccum] using this
  · intro msgs k hk
    have := streamLoad_length_aux k hk msgs emptyAccum
    simpa [streamLoad, emptyAccum] using this
  · intro acc fr k hk
    simp [bulkStep, if_pos hk]
  · intro acc m k hk
    simp [streamStep, if_pos hk]

lemma regionLoop_inv {α : Type} [LinearOrderedField α] (thr : α) (minA : ℕ) (f : ℕ → α) :
    ∀ (l : List α) (i : ℕ) (st : Option ℕ) (regs : List (ℕ × ℕ)),
      (∀ j, j < l.length → l.getD j 0 = f (i + j)) →
      (∀ se ∈ regs, ∀ k, se.1 ≤ k → k < se.2 → thr < f k) →
      (∀ s, st = some s → ∀ k, s ≤ k → k < i → thr < f k) →
      (∀ se ∈ (regionLoop thr minA l i st regs).2, ∀ k, se.1 ≤ k → k < se.2 → thr < f k) ∧
        (∀ s, (regionLoop thr minA l i st regs).1 = some s →
          ∀ k, s ≤ k → k < i + l.length → thr < f k)
  | [], i, st, regs => by
    intro _ hregs hst
    refine ⟨fun se hse => hregs se hse, fun s hs k h1 h2 => ?_⟩
    exact hst s (by simpa [regionLoop] using hs) k h1 (by simpa using h2)
  | v :: rest, i, st, regs => by
    intro hl hregs hst
    have hfv : f i = v := by
      have h0 := hl 0 (by simp)
      simpa using h0.symm
    have hl2 : ∀ j, j < rest.length → rest.getD j 0 = f (i + 1 + j) := by
      intro j hj
      have h1 := hl (j + 1) (by simpa using Nat.succ_lt_succ hj)
      rw [List.getD_cons_succ] at h1
      rw [h1]
      congr 1
      omega
    have hlen : i + (v :: rest).length = (i + 1) + rest.length := by
      simp; omega
    cases st with
    | none =>
      by_cases hv : thr < v
      · have hrec := regionLoop_inv thr minA f rest (i + 1) (some i) regs hl2 hregs ?_
        · rw [show regionLoop thr minA (v :: rest) i none regs
              = regionLoop thr minA rest (i + 1) (some i) regs by simp [regionLoop, hv],
            hlen]
          exact hrec
        · intro s hs k hk1 hk2
          injection hs with hs
          subst hs
          have : k = i := by omega
          subst this
          rw [hfv]
          exact hv
      · have hrec := regionLoop_inv thr minA f rest (i + 1) none regs hl2 hregs
          (fun s hs => Option.noConfusion hs)
        rw [show regionLoop thr minA (v :: rest) i none regs
            = regionLoop thr minA rest (i + 1) none regs by simp [regionLoop, hv], hlen]
        exact hrec
    | some s0 =>
      have hopen := hst s0 rfl
      by_cases hv : thr < v
      · have hrec := regionLoop_inv thr minA f rest (i + 1) (some s0) regs hl2 hregs ?_
        · rw [show regionLoop thr minA (v :: rest) i (some s0) regs
              = regionLoop thr minA rest (i + 1) (some s0) regs by simp [regionLoop, hv],
            hlen]
          exact hrec
        · intro s hs k hk1 hk2
          injection hs with hs
          subst hs
          rcases Nat.lt_or_ge k i with hki | hki
          · exact hopen k hk1 hki
          · have : k = i := by omega
            subst this
            rw [hfv]
            exact hv
      · by_cases hm : minA ≤ i - s0
        · have hregs2 : ∀ se ∈ regs ++ [(s0, i)], ∀ k, se.1 ≤ k → k < se.2 → thr < f k := by
            intro se hse
            rcases List.mem_append.mp hse with hin | hin
            · exact hregs se hin
            · have : se = (s0, i) := by simpa using hin
              subst this
              exact fun k hk1 hk2 => hopen k hk1 hk2
          have hrec := regionLoop_inv thr minA f rest (i + 1) none (regs ++ [(s0, i)]) hl2
            hregs2 (fun s hs => Option.noConfusion hs)
          rw [show regionLoop thr minA (v :: rest) i (some s0) regs
              = regionLoop thr minA rest (i + 1) none (regs ++ [(s0, i)]) by
                simp [regionLoop, hv, hm], hlen]
          exact hrec
        · have hrec := regionLoop_inv thr minA f rest (i + 1) none regs hl2 hregs
            (fun s hs => Option.noConfusion hs)
          rw [show regionLoop thr minA (v :: rest) i (some s0) regs
              = regionLoop thr minA rest (i + 1) none regs by simp [regionLoop, hv, hm],
            hlen]
          exact hrec

/-- **C2 (amended).**  Every frame index in the half-open interval
`[start, end)` of a reported region is active (smoothed score strictly above
the threshold); the `end` frame of a region closed in mid-series is the first
inactive frame, so the claim's closed interval `[start, end]` fails there. -/
theorem C2_active_interior {α : Type} [LinearOrderedField α] (smoothed : List α)
    (thr : α) (minA : ℕ) (s e : ℕ)
    (hmem : (s, e) ∈ detectRegions smoothed thr minA) :
    ∀ i, s ≤ i → i < e → thr < smoothed.getD i 0 := by
  have H := regionLoop_inv thr minA (fun k => smoothed.getD k 0) smoothed 0 none []
    (fun j _ => by simp) (by simp) (fun s hs => Option.noConfusion hs)
  unfold detectRegions at hmem
  cases hr : (regionLoop thr minA smoothed 0 none []).1 with
  | none =>
    rw [hr] at hmem
    exact fun i h1 h2 => H.1 (s, e) hmem i h1 h2
  | some s0 =>
    rw [hr] at hmem
    dsimp only at hmem
    by_cases hminA : minA ≤ smoothed.length - s0
    · rw [if_pos hminA] at hmem
      rcases List.mem_append.mp hmem with hin | hin
      · exact fun i h1 h2 => H.1 (s, e) hin i h1 h2
      · have hpair : s = s0 ∧ e = smoothed.length - 1 := by simpa using hin
        intro i h1 h2
        have h3 := Nat.sub_le smoothed.length 1
        refine H.2 s0 hr i (by omega) ?_
        omega
    · rw [if_neg hminA] at hmem
      exact fun i h1 h2 => H.1 (s, e) hmem i h1 h2

/-- Counterexample to C2 as stated: with the source's threshold 30 and
minimum region length 15, a smoothed series of fifteen 31s followed by a 0
reports the region `(0, 15)`, whose end frame 15 has score `0`, not above the
threshold — the closed interval `[start, end]` is not all active. -/
theorem C2_counterexample :
    (0, 15) ∈ detectRegions (List.replicate 15 (31 : ℚ) ++ [0])
        ACTIVITY_THRESHOLD MIN_ACTIVE_FRAMES ∧
      ¬ ACTIVITY_THRESHOLD < (List.replicate 15 (31 : ℚ) ++ [0]).getD 15 0 := by
  decide

/-- Witness for C2 at a concrete series with a region reported. -/
theorem C2_active_interior_witness : (4 : ℚ) < ([5, 5, 5] : List ℚ).getD 1 0 :=
  C2_active_interior [5, 5, 5] 4 2 0 2 (by decide) 1 (by decide) (by decide)

/-- **C6 (amended).**  `calculate_3d_angle` on three present points computes
exactly the spec's `acos(clamp(dot(v1,v2)/(|v1||v2|), -1, 1))` in degrees,
with the degeneracy guard testing the product `|v1| * |v2|` against `1e-9`
(returning `0.0` below it) — not each vector's squared length. -/
theorem C6_angle_formula (A B C : Vec3) :
    calculate_3d_angle (some A) (some B) (some C) = angleBetween_spec A B C := by
  have hn1 : (A.sub B).len
      = Real.sqrt ((A.x - B.x) ^ 2 + (A.y - B.y) ^ 2 + (A.z - B.z) ^ 2) := by
    rw [Vec3.len]
    congr 1
    simp [Vec3.sub, Vec3.lengthSq]
    ring
  have hn2 : (C.sub B).len
      = Real.sqrt ((C.x - B.x) ^ 2 + (C.y - B.y) ^ 2 + (C.z - B.z) ^ 2) := by
    rw [Vec3.len]
    congr 1
    simp [Vec3.sub, Vec3.lengthSq]
    ring
  have hd : (A.sub B).dot (C.sub B)
      = (A.x - B.x) * (C.x - B.x) + (A.y - B.y) * (C.y - B.y) + (A.z - B.z) * (C.z - B.z) := by
    simp [Vec3.sub, Vec3.dot]
  show (if (A.sub B).len * (C.sub B).len < 1 / 1000000000 then (0 : ℝ)
      else Real.arccos (clamp ((A.sub B).dot (C.sub B) / ((A.sub B).len * (C.sub B).len))
        (-1) 1) * 180 / Real.pi) = _
  rw [hn1, hn2, hd]
  rfl

/-- Counterexample to C6 as stated: `A = (1e-5, 0, 0)`, `B = 0`,
`C = (0, 1, 0)`.  The first vector's squared length `1e-10` is below the
`1e-9` epsilon, yet the product guard does not fire (`1e-5 ≥ 1e-9`) and the
function returns `90`, not `0.0`. -/
theorem C6_counterexample :
    ((Vec3.mk (1 / 100000) 0 0).sub Vec3.zero).lengthSq < 1 / 1000000000 ∧
      calculate_3d_angle (some (Vec3.mk (1 / 100000) 0 0)) (some Vec3.zero)
          (some (Vec3.mk 0 1 0)) = 90 ∧
      (90 : ℝ) ≠ 0 := by
  refine ⟨by norm_num [Vec3.sub, Vec3.zero, Vec3.lengthSq], ?_, by norm_num⟩
  have l1 : ((Vec3.mk (1 / 100000 : ℝ) 0 0).sub Vec3.zero).len = 1 / 100000 :=
    len_eval _ _ (by norm_num [Vec3.sub, Vec3.zero, Vec3.lengthSq]) (by norm_num)
  have l2 : ((Vec3.mk (0 : ℝ) 1 0).sub Vec3.zero).len = 1 :=
    len_eval _ _ (by norm_num [Vec3.sub, Vec3.zero, Vec3.lengthSq]) (by norm_num)
  show (if ((Vec3.mk (1 / 100000 : ℝ) 0 0).sub Vec3.zero).len
        * ((Vec3.mk (0 : ℝ) 1 0).sub Vec3.zero).len < 1 / 1000000000 then (0 : ℝ)
      else Real.arccos (clamp (((Vec3.mk (1 / 100000 : ℝ) 0 0).sub Vec3.zero).dot
          ((Vec3.mk (0 : ℝ) 1 0).sub Vec3.zero)
          / (((Vec3.mk (1 / 100000 : ℝ) 0 0).sub Vec3.zero).len
            * ((Vec3.mk (0 : ℝ) 1 0).sub Vec3.zero).len)) (-1) 1) * 180 / Real.pi) = 90
  rw [l1, l2, if_neg (by norm_num)]
  have hd : ((Vec3.mk (1 / 100000 : ℝ) 0 0).sub Vec3.zero).dot
      ((Vec3.mk (0 : ℝ) 1 0).sub Vec3.zero) = 0 := by
    norm_num [Vec3.sub, Vec3.dot, Vec3.zero]
  rw [hd]
  norm_num [clamp, Real.arccos_zero]
  field_simp
  ring

/-- Witness for C6 (the formula refinement applied at a concrete triple,
where it evaluates to 90 degrees on both sides). -/
theorem C6_angle_formula_witness :
    calculate_3d_angle (some (Vec3.mk 1 0 0)) (some Vec3.zero) (some (Vec3.mk 0 1 0))
      = angleBetween_spec (Vec3.mk 1 0 0) Vec3.zero (Vec3.mk 0 1 0) :=
  C6_angle_formula _ _ _

/-- Witness for C4 at concrete inputs. -/
theorem C4_lockstep_witness :
    (bulkLoad [some frameKnee, none] "R_Knee (Bend)").length = 2 ∧
      (streamLoad [fun _ => some 1] "Waist (X-Axis Rotation)").length = 1 ∧
      (bulkStep emptyAccum none "L_Elbow (Bend)").length = (emptyAccum "L_Elbow (Bend)").length + 1 ∧
      (streamStep emptyAccum (fun _ => none) "L_Knee (Bend)").length
        = (emptyAccum "L_Knee (Bend)").length + 1 :=
  ⟨C4_lockstep.1 _ _ (by decide), C4_lockstep.2.1 _ _ (by decide),
   C4_lockstep.2.2.1 _ _ _ (by decide), C4_lockstep.2.2.2 _ _ _ (by decide)⟩

/-- **C1 (amended).**  For every frame with at least 17 keypoints, each of
the 23 values returned by `process_all_angles` is the full-precision result
of the corresponding angle computation **rounded to one decimal place**: the
rounding (`toFixed(1)`) is applied inside the computation at the moment each
entry is stored, not only at a later serialization boundary. -/
theorem C1_rounding_inside (kp : Frame) (h : 17 ≤ kp.length) (k : String)
    (hk : k ∈ ANGLE_KEYS) :
    angleValue (some kp) k = toFixed1 (fullAngle kp k) :=
  angleValue_full kp h k hk

/-- Witness for C1 at the concrete frame `frameKnee`. -/
theorem C1_rounding_inside_witness :
    angleValue (some frameKnee) "R_Knee (Bend)"
      = toFixed1 (fullAngle frameKnee "R_Knee (Bend)") :=
  C1_rounding_inside frameKnee (by norm_num [frameKnee]) _ (by decide)

/-- Counterexample to C1 as stated: at `frameKnee` (17 keypoints), the stored
right-knee bend differs from the full-precision result of the knee angle
computation — the full-precision value `acos(3/5)` in degrees is irrational,
and the stored value is its one-decimal rounding, a rational number. -/
theorem C1_counterexample :
    angleValue (some frameKnee) "R_Knee (Bend)" ≠
      calculate_3d_angle (getkp frameKnee 1) (getkp frameKnee 2) (getkp frameKnee 3) := by
  have hg1 : getkp frameKnee 1 = some ⟨3, 4, 0⟩ := rfl
  have hg2 : getkp frameKnee 2 = some ⟨0, 0, 0⟩ := rfl
  have hg3 : getkp frameKnee 3 = some ⟨5, 0, 0⟩ := rfl
  have hlen1 : ((Vec3.mk (3 : ℝ) 4 0).sub ⟨0, 0, 0⟩).len = 5 :=
    len_eval _ _ (by norm_num [Vec3.sub, Vec3.lengthSq]) (by norm_num)
  have hlen2 : ((Vec3.mk (5 : ℝ) 0 0).sub ⟨0, 0, 0⟩).len = 5 :=
    len_eval _ _ (by norm_num [Vec3.sub, Vec3.lengthSq]) (by norm_num)
  have hdot : ((Vec3.mk (3 : ℝ) 4 0).sub ⟨0, 0, 0⟩).dot ((Vec3.mk (5 : ℝ) 0 0).sub ⟨0, 0, 0⟩)
      = 15 := by norm_num [Vec3.sub, Vec3.dot]
  have hfull : calculate_3d_angle (getkp frameKnee 1) (getkp frameKnee 2) (getkp frameKnee 3)
      = Real.arccos (3 / 5) * 180 / Real.pi := by
    rw [hg1, hg2, hg3, calculate_3d_angle_some, hlen1, hlen2, hdot,
      if_neg (by norm_num)]
    norm_num [clamp]
  have harg : fullAngle frameKnee "R_Knee (Bend)" = Real.arccos (3 / 5) * 180 / Real.pi := by
    unfold fullAngle partialRaw bendRaw
    simp only [List.cons_append, List.lookup, beq_self_eq_true, Option.getD_some]
    rw [hg1, hg2, hg3, calculate_3d_angle_some, hlen1, hlen2, hdot,
      if_neg (by norm_num)]
    norm_num [clamp]
  have hval : angleValue (some frameKnee) "R_Knee (Bend)"
      = toFixed1 (Real.arccos (3 / 5) * 180 / Real.pi) := by
    rw [angleValue_full frameKnee (by norm_num [frameKnee]) _ (by decide), harg]
  rw [hval, hfull]
  intro heq
  exact rational_of_toFixed1_fix heq knee_angle_irrational

lemma mirV_sub (a b : Vec3) : (mirV a).sub (mirV b) = mirV (a.sub b) := by
  ext <;> simp [mirV, Vec3.sub] <;> ring

lemma mirV_lengthSq (v : Vec3) : (mirV v).lengthSq = v.lengthSq := by
  simp [mirV, Vec3.lengthSq]

lemma mirW_lengthSq (v : Vec3) : (mirW v).lengthSq = v.lengthSq := by
  simp [mirW, Vec3.lengthSq]

lemma mirV_len (v : Vec3) : (mirV v).len = v.len := by
  unfold Vec3.len; rw [mirV_lengthSq]

lemma mirW_len (v : Vec3) : (mirW v).len = v.len := by
  unfold Vec3.len; rw [mirW_lengthSq]

lemma mirV_normalize (v : Vec3) : (mirV v).normalize = mirV v.normalize := by
  unfold Vec3.normalize
  rw [mirV_len]
  ext <;> simp [mirV, Vec3.smul]

lemma mirW_normalize (v : Vec3) : (mirW v).normalize = mirW v.normalize := by
  unfold Vec3.normalize
  rw [mirW_len]
  ext <;> simp [mirW, Vec3.smul]

lemma mirV_cross (a b : Vec3) : (mirV a).cross (mirV b) = mirW (a.cross b) := by
  ext <;> simp [mirV, mirW, Vec3.cross] <;> ring

lemma mirV_cross_mirW (a b : Vec3) : (mirV a).cross (mirW b) = mirV (a.cross b) := by
  ext <;> simp [mirV, mirW, Vec3.cross] <;> ring

lemma mirV_fixed (v : Vec3) (h : v.x = 0) : mirV v = v := by
  ext <;> simp [mirV, h]

lemma zero_sub_mirV (v : Vec3) : Vec3.zero.sub (mirV v) = mirV (Vec3.zero.sub v) := by
  ext <;> simp [mirV, Vec3.sub, Vec3.zero]

lemma makeBasis_mir (a b c : Vec3) :
    Mat3.makeBasis (mirW a) (mirV b) (mirV c) = mirM (Mat3.makeBasis a b c) := by
  ext <;> simp [mirV, mirW, mirM, Mat3.makeBasis]

lemma mirM_det (A : Mat3) : (mirM A).det = A.det := by
  simp [mirM, Mat3.det]; ring

lemma mirM_zero : mirM Mat3.zero = Mat3.zero := by
  ext <;> simp [mirM, Mat3.zero]

lemma mirM_idm : mirM Mat3.idm = Mat3.idm := by
  ext <;> simp [mirM, Mat3.idm]

lemma mirM_inv (A : Mat3) : (mirM A).inv = mirM A.inv := by
  unfold Mat3.inv
  rw [mirM_det]
  split
  · exact mirM_zero.symm
  · ext <;> simp [mirM] <;> ring

lemma mirM_mul (A B : Mat3) : (mirM A).mul (mirM B) = mirM (A.mul B) := by
  ext <;> simp [mirM, Mat3.mul] <;> ring

/-- Mirror law for the look-at basis: reflecting target and up conjugates the
basis by the sagittal reflection, provided the forward vector is nonzero and
`up` is not parallel to it (no fallback branch is taken). -/
lemma lookAtBasis_mir (target up : Vec3)
    (ht : (Vec3.zero.sub target).lengthSq ≠ 0)
    (hx : (up.cross (Vec3.zero.sub target).normalize).lengthSq ≠ 0) :
    lookAtBasis Vec3.zero (mirV target) (mirV up)
      = mirM (lookAtBasis Vec3.zero target up) := by
  unfold lookAtBasis
  dsimp only
  rw [zero_sub_mirV, mirV_lengthSq, if_neg ht, if_neg ht, mirV_normalize, mirV_cross,
    mirW_lengthSq, if_neg hx, if_neg hx, mirW_normalize, mirV_cross_mirW, makeBasis_mir]

/-- Mirror law for `compute_rotation_matrix` under the same non-degeneracy
conditions. -/
lemma compute_rotation_matrix_mir (u v : Vec3)
    (ht : (Vec3.zero.sub v).lengthSq ≠ 0)
    (hx : (u.cross (Vec3.zero.sub v).normalize).lengthSq ≠ 0) :
    kinematics.compute_rotation_matrix (mirV u) (mirV v)
      = mirM (kinematics.compute_rotation_matrix u v) := by
  unfold kinematics.compute_rotation_matrix
  rw [mirV_lengthSq, mirV_lengthSq]
  split
  · exact mirM_idm.symm
  · rw [lookAtBasis_mir v u ht hx, mirM_inv]

lemma atan2_neg_left (y x : ℝ) (h : ¬(y = 0 ∧ x < 0)) :
    atan2 (-y) x = -atan2 y x := by
  unfold atan2
  rcases lt_trichotomy x 0 with hx | rfl | hx
  · have hnx : ¬0 < x := by linarith
    rcases lt_trichotomy y 0 with hy | hy | hy
    · rw [if_neg hnx, if_pos hx, if_pos (by linarith : (0 : ℝ) ≤ -y),
        if_neg hnx, if_pos hx, if_neg (by linarith : ¬(0 : ℝ) ≤ y),
        neg_div, Real.arctan_neg]
      ring
    · exact absurd ⟨hy, hx⟩ h
    · rw [if_neg hnx, if_pos hx, if_neg (by linarith : ¬(0 : ℝ) ≤ -y),
        if_neg hnx, if_pos hx, if_pos (by linarith : (0 : ℝ) ≤ y),
        neg_div, Real.arctan_neg]
      ring
  · have hnx : ¬(0 : ℝ) < 0 := lt_irrefl 0
    rcases lt_trichotomy y 0 with hy | rfl | hy
    · rw [if_neg hnx, if_neg hnx, if_pos (by linarith : (0 : ℝ) < -y),
        if_neg hnx, if_neg hnx, if_neg (by linarith : ¬(0 : ℝ) < y), if_pos hy]
      ring
    · norm_num
    · rw [if_neg hnx, if_neg hnx, if_neg (by linarith : ¬(0 : ℝ) < -y),
        if_pos (by linarith : -y < 0),
        if_neg hnx, if_neg hnx, if_pos hy]
  · rw [if_pos hx, if_pos hx, neg_div, Real.arctan_neg]

/-- Mirror law for the YXZ Euler extraction: conjugating by the sagittal
reflection keeps X and negates Y and Z, away from the `atan2` branch-cut
edges. -/
lemma eulerYXZ_mirM (A : Mat3)
    (h13 : ¬(A.m13 = 0 ∧ A.m33 < 0)) (h21 : ¬(A.m21 = 0 ∧ A.m22 < 0))
    (h31 : ¬(A.m31 = 0 ∧ A.m11 < 0)) :
    eulerYXZ (mirM A)
      = ((eulerYXZ A).1, -(eulerYXZ A).2.1, -(eulerYXZ A).2.2) := by
  unfold eulerYXZ
  dsimp only [mirM]
  split
  · rw [atan2_neg_left _ _ h13, atan2_neg_left _ _ h21]
  · have h31n : ¬(-A.m31 = 0 ∧ A.m11 < 0) := by
      intro hcon
      exact h31 ⟨by linarith [hcon.1], hcon.2⟩
    rw [neg_neg, show A.m31 = -(-A.m31) by ring, atan2_neg_left _ _ h31n]
    simp

/-- Mirror law for the degree-valued Euler extraction. -/
lemma rme_mirM (A : Mat3)
    (h13 : ¬(A.m13 = 0 ∧ A.m33 < 0)) (h21 : ¬(A.m21 = 0 ∧ A.m22 < 0))
    (h31 : ¬(A.m31 = 0 ∧ A.m11 < 0)) :
    kinematics.rotation_matrix_to_euler_angles (mirM A)
      = ((kinematics.rotation_matrix_to_euler_angles A).1,
         -(kinematics.rotation_matrix_to_euler_angles A).2.1,
         -(kinematics.rotation_matrix_to_euler_angles A).2.2) := by
  unfold kinematics.rotation_matrix_to_euler_angles
  rw [eulerYXZ_mirM A h13 h21 h31]
  dsimp only
  refine Prod.ext rfl (Prod.ext ?_ ?_) <;> dsimp only <;> ring

lemma rShoulderRaw_lookup3 (kp : Frame) (hlen : 12 < kp.length) (P8 P11 P12 : Vec3)
    (h8 : getkp kp 8 = some P8) (h11 : getkp kp 11 = some P11)
    (h12 : getkp kp 12 = some P12) :
    (kinematics.rShoulderRaw kp).lookup "R Shoulder (X-Axis Rotation)"
        = some ((kinematics.rotation_matrix_to_euler_angles
            (kinematics.compute_rotation_matrix (P8.sub P11) (P12.sub P11))).1) ∧
      (kinematics.rShoulderRaw kp).lookup "R Shoulder (Y-Axis Rotation)"
        = some ((kinematics.rotation_matrix_to_euler_angles
            (kinematics.compute_rotation_matrix (P8.sub P11) (P12.sub P11))).2.1) ∧
      (kinematics.rShoulderRaw kp).lookup "R Shoulder (Z-Axis Rotation)"
        = some ((kinematics.rotation_matrix_to_euler_angles
            (kinematics.compute_rotation_matrix (P8.sub P11) (P12.sub P11))).2.2) := by
  unfold kinematics.rShoulderRaw
  rw [if_pos hlen, h8, h11, h12]
  exact ⟨rfl, rfl, rfl⟩

lemma lShoulderRaw_lookup3 (kp : Frame) (hlen : 15 < kp.length) (P8 P14 P15 : Vec3)
    (h8 : getkp kp 8 = some P8) (h14 : getkp kp 14 = some P14)
    (h15 : getkp kp 15 = some P15) :
    (kinematics.lShoulderRaw kp).lookup "L Shoulder (X-Axis Rotation)"
        = some ((kinematics.rotation_matrix_to_euler_angles
            (kinematics.compute_rotation_matrix (P8.sub P14) (P15.sub P14))).1) ∧
      (kinematics.lShoulderRaw kp).lookup "L Shoulder (Y-Axis Rotation)"
        = some (-(kinematics.rotation_matrix_to_euler_angles
            (kinematics.compute_rotation_matrix (P8.sub P14) (P15.sub P14))).2.1) ∧
      (kinematics.lShoulderRaw kp).lookup "L Shoulder (Z-Axis Rotation)"
        = some (-(kinematics.rotation_matrix_to_euler_angles
            (kinematics.compute_rotation_matrix (P8.sub P14) (P15.sub P14))).2.2) := by
  unfold kinematics.lShoulderRaw
  rw [if_pos hlen, h8, h14, h15]
  exact ⟨rfl, rfl, rfl⟩

lemma rHipRaw_lookup3 (kp : Frame) (hlen : 2 < kp.length) (P0 P1 P2 : Vec3)
    (h0 : getkp kp 0 = some P0) (h1 : getkp kp 1 = some P1)
    (h2 : getkp kp 2 = some P2) :
    (kinematics.rHipRaw kp).lookup "R Hip (X-Axis Rotation)"
        = some ((kinematics.rotation_matrix_to_euler_angles
            (kinematics.compute_rotation_matrix (P0.sub P1) (P2.sub P1))).1) ∧
      (kinematics.rHipRaw kp).lookup "R Hip (Y-Axis Rotation)"
        = some ((kinematics.rotation_matrix_to_euler_angles
            (kinematics.compute_rotation_matrix (P0.sub P1) (P2.sub P1))).2.1) ∧
      (kinematics.rHipRaw kp).lookup "R Hip (Z-Axis Rotation)"
        = some ((kinematics.rotation_matrix_to_euler_angles
            (kinematics.compute_rotation_matrix (P0.sub P1) (P2.sub P1))).2.2) := by
  unfold kinematics.rHipRaw
  rw [if_pos hlen, h0, h1, h2]
  exact ⟨rfl, rfl, rfl⟩

lemma lHipRaw_lookup3 (kp : Frame) (hlen : 5 < kp.length) (P0 P4 P5 : Vec3)
    (h0 : getkp kp 0 = some P0) (h4 : getkp kp 4 = some P4)
    (h5 : getkp kp 5 = some P5) :
    (kinematics.lHipRaw kp).lookup "L Hip (X-Axis Rotation)"
        = some ((kinematics.rotation_matrix_to_euler_angles
            (kinematics.compute_rotation_matrix (P0.sub P4) (P5.sub P4))).1) ∧
      (kinematics.lHipRaw kp).lookup "L Hip (Y-Axis Rotation)"
        = some (-(kinematics.rotation_matrix_to_euler_angles
            (kinematics.compute_rotation_matrix (P0.sub P4) (P5.sub P4))).2.1) ∧
      (kinematics.lHipRaw kp).lookup "L Hip (Z-Axis Rotation)"
        = some (-(kinematics.rotation_matrix_to_euler_angles
            (kinematics.compute_rotation_matrix (P0.sub P4) (P5.sub P4))).2.2) := by
  unfold kinematics.lHipRaw
  rw [if_pos hlen, h0, h4, h5]
  exact ⟨rfl, rfl, rfl⟩

lemma fullAngle_eq_of_anat (kp : Frame) (k : String) (v : ℝ)
    (hb : (kinematics.bendRaw kp).lookup k = none)
    (hv : (kinematics.verticalRaw kp).lookup k = none)
    (ha : (kinematics.anatomicalRaw kp).lookup k = some v) :
    kinematics.fullAngle kp k = v := by
  unfold kinematics.fullAngle kinematics.partialRaw
  have hbv : (kinematics.bendRaw kp ++ kinematics.verticalRaw kp).lookup k = none := by
    rw [lookup_append_none _ _ hb]; exact hv
  rw [lookup_append_none _ _ hbv, ha]
  rfl

lemma anat_lookup_rsh (kp : Frame) (k : String) (v : ℝ)
    (hw : (kinematics.waistRaw kp).lookup k = none)
    (hn : (kinematics.neckRaw kp).lookup k = none)
    (hf : (kinematics.rShoulderRaw kp).lookup k = some v) :
    (kinematics.anatomicalRaw kp).lookup k = some v := by
  unfold kinematics.anatomicalRaw
  have s1 : (kinematics.waistRaw kp ++ kinematics.neckRaw kp).lookup k = none := by
    rw [lookup_append_none _ _ hw]; exact hn
  have s2 : (kinematics.waistRaw kp ++ kinematics.neckRaw kp
      ++ kinematics.rShoulderRaw kp).lookup k = some v := by
    rw [lookup_append_none _ _ s1]; exact hf
  exact lookup_append_some _ _ (lookup_append_some _ _ (lookup_append_some _ _ s2))

lemma anat_lookup_lsh (kp : Frame) (k : String) (v : ℝ)
    (hw : (kinematics.waistRaw kp).lookup k = none)
    (hn : (kinematics.neckRaw kp).lookup k = none)
    (hrs : (kinematics.rShoulderRaw kp).lookup k = none)
    (hf : (kinematics.lShoulderRaw kp).lookup k = some v) :
    (kinematics.anatomicalRaw kp).lookup k = some v := by
  unfold kinematics.anatomicalRaw
  have s1 : (kinematics.waistRaw kp ++ kinematics.neckRaw kp).lookup k = none := by
    rw [lookup_append_none _ _ hw]; exact hn
  have s2 : (kinematics.waistRaw kp ++ kinematics.neckRaw kp
      ++ kinematics.rShoulderRaw kp).lookup k = none := by
    rw [lookup_append_none _ _ s1]; exact hrs
  have s3 : (kinematics.waistRaw kp ++ kinematics.neckRaw kp ++ kinematics.rShoulderRaw kp
      ++ kinematics.lShoulderRaw kp).lookup k = some v := by
    rw [lookup_append_none _ _ s2]; exact hf
  exact lookup_append_some _ _ (lookup_append_some _ _ s3)

lemma anat_lookup_rhip (kp : Frame) (k : String) (v : ℝ)
    (hw : (kinematics.waistRaw kp).lookup k = none)
    (hn : (kinematics.neckRaw kp).lookup k = none)
    (hrs : (kinematics.rShoulderRaw kp).lookup k = none)
    (hls : (kinematics.lShoulderRaw kp).lookup k = none)
    (hf : (kinematics.rHipRaw kp).lookup k = some v) :
    (kinematics.anatomicalRaw kp).lookup k = some v := by
  unfold kinematics.anatomicalRaw
  have s1 : (kinematics.waistRaw kp ++ kinematics.neckRaw kp).lookup k = none := by
    rw [lookup_append_none _ _ hw]; exact hn
  have s2 : (kinematics.waistRaw kp ++ kinematics.neckRaw kp
      ++ kinematics.rShoulderRaw kp).lookup k = none := by
    rw [lookup_append_none _ _ s1]; exact hrs
  have s3 : (kinematics.waistRaw kp ++ kinematics.neckRaw kp ++ kinematics.rShoulderRaw kp
      ++ kinematics.lShoulderRaw kp).lookup k = none := by
    rw [lookup_append_none _ _ s2]; exact hls
  have s4 : (kinematics.waistRaw kp ++ kinematics.neckRaw kp ++ kinematics.rShoulderRaw kp
      ++ kinematics.lShoulderRaw kp ++ kinematics.rHipRaw kp).lookup k = some v := by
    rw [lookup_append_none _ _ s3]; exact hf
  exact lookup_append_some _ _ s4

lemma anat_lookup_lhip (kp : Frame) (k : String) (v : ℝ)
    (hw : (kinematics.waistRaw kp).lookup k = none)
    (hn : (kinematics.neckRaw kp).lookup k = none)
    (hrs : (kinematics.rShoulderRaw kp).lookup k = none)
    (hls : (kinematics.lShoulderRaw kp).lookup k = none)
    (hrh : (kinematics.rHipRaw kp).lookup k = none)
    (hf : (kinematics.lHipRaw kp).lookup k = some v) :
    (kinematics.anatomicalRaw kp).lookup k = some v := by
  unfold kinematics.anatomicalRaw
  have s1 : (kinematics.waistRaw kp ++ kinematics.neckRaw kp).lookup k = none := by
    rw [lookup_append_none _ _ hw]; exact hn
  have s2 : (kinematics.waistRaw kp ++ kinematics.neckRaw kp
      ++ kinematics.rShoulderRaw kp).lookup k = none := by
    rw [lookup_append_none _ _ s1]; exact hrs
  have s3 : (kinematics.waistRaw kp ++ kinematics.neckRaw kp ++ kinematics.rShoulderRaw kp
      ++ kinematics.lShoulderRaw kp).lookup k = none := by
    rw [lookup_append_none _ _ s2]; exact hls
  have s4 : (kinematics.waistRaw kp ++ kinematics.neckRaw kp ++ kinematics.rShoulderRaw kp
      ++ kinematics.lShoulderRaw kp ++ kinematics.rHipRaw kp).lookup k = none := by
    rw [lookup_append_none _ _ s3]; exact hrh
  rw [lookup_append_none _ _ s4]; exact hf

/-- The L/R pair law at the matrix-and-Euler level: mirroring both input
vectors keeps the X Euler component and negates Y and Z. -/
lemma mirror_pair (u v : Vec3)
    (ht : (Vec3.zero.sub v).lengthSq ≠ 0)
    (hx : (u.cross (Vec3.zero.sub v).normalize).lengthSq ≠ 0)
    (h13 : ¬((kinematics.compute_rotation_matrix u v).m13 = 0
      ∧ (kinematics.compute_rotation_matrix u v).m33 < 0))
    (h21 : ¬((kinematics.compute_rotation_matrix u v).m21 = 0
      ∧ (kinematics.compute_rotation_matrix u v).m22 < 0))
    (h31 : ¬((kinematics.compute_rotation_matrix u v).m31 = 0
      ∧ (kinematics.compute_rotation_matrix u v).m11 < 0)) :
    kinematics.rotation_matrix_to_euler_angles
        (kinematics.compute_rotation_matrix (mirV u) (mirV v))
      = ((kinematics.rotation_matrix_to_euler_angles
            (kinematics.compute_rotation_matrix u v)).1,
         -(kinematics.rotation_matrix_to_euler_angles
            (kinematics.compute_rotation_matrix u v)).2.1,
         -(kinematics.rotation_matrix_to_euler_angles
            (kinematics.compute_rotation_matrix u v)).2.2) := by
  rw [compute_rotation_matrix_mir u v ht hx]
  exact rme_mirM _ h13 h21 h31

/-- **C5 (amended).**  For every frame with at least 17 keypoints whose
waist-contributing vectors include an exactly zero vector (pelvis = torso,
right hip = left hip, or neck = torso — the degeneracy the guard can actually
catch, since it tests the squared length of the already-normalized vectors),
the three waist rotations keep their 0.0 default and every other angle is
still computed as usual. -/
theorem C5_zero_vector_waist_default (kp : Frame) (h17 : 17 ≤ kp.length)
    (p7 p0 p1 p4 p8 : Vec3)
    (h7 : getkp kp 7 = some p7) (h0 : getkp kp 0 = some p0)
    (h1 : getkp kp 1 = some p1) (h4 : getkp kp 4 = some p4)
    (h8 : getkp kp 8 = some p8)
    (hdeg : p7 = p0 ∨ p1 = p4 ∨ p8 = p7) :
    (∀ k ∈ waistKeys, angleValue (some kp) k = 0) ∧
      (∀ k ∈ ANGLE_KEYS, k ∉ waistKeys →
        angleValue (some kp) k = toFixed1 (fullAngle kp k)) := by
  have hnil := waistRaw_nil kp p7 p0 p1 p4 p8 h7 h0 h1 h4 h8 hdeg
  constructor
  · intro k hk
    have hmem : k = "Waist (X-Axis Rotation)" ∨ k = "Waist (Y-Axis Rotation)"
        ∨ k = "Waist (Z-Axis Rotation)" := by simpa [waistKeys] using hk
    have hkA : k ∈ ANGLE_KEYS := by
      rcases hmem with rfl | rfl | rfl <;> decide
    rw [angleValue_full kp h17 k hkA, fullAngle_waist_zero kp k hk hnil, toFixed1_zero]
  · intro k hkA _
    exact angleValue_full kp h17 k hkA

/-- Witness for C5 at `frameMirror` (whose neck coincides with its torso
keypoint, an exactly degenerate torso-to-neck vector). -/
theorem C5_zero_vector_waist_default_witness :
    angleValue (some frameMirror) "Waist (Y-Axis Rotation)" = 0 ∧
      angleValue (some frameMirror) "R_Knee (Bend)"
        = toFixed1 (fullAngle frameMirror "R_Knee (Bend)") :=
  ⟨(C5_zero_vector_waist_default frameMirror (by norm_num [frameMirror])
      _ _ _ _ _ rfl rfl rfl rfl rfl (Or.inr (Or.inr rfl))).1 _ (by decide),
   (C5_zero_vector_waist_default frameMirror (by norm_num [frameMirror])
      _ _ _ _ _ rfl rfl rfl rfl rfl (Or.inr (Or.inr rfl))).2 _ (by decide) (by decide)⟩

/-- Counterexample to C5 as stated: at `frameWaist` the pelvis-to-torso
vector `(1e-5, 0, 0)` has squared length `1e-10`, below the `1e-9` epsilon,
yet the waist block runs (the guard only sees the normalized vector) and
stores a waist Y rotation of `-90`, not the 0.0 default. -/
theorem C5_counterexample :
    ((Vec3.mk (1 / 100000 : ℝ) 0 0).sub ⟨0, 0, 0⟩).lengthSq < 1 / 1000000000 ∧
      getkp frameWaist 7 = some ⟨1 / 100000, 0, 0⟩ ∧
      getkp frameWaist 0 = some ⟨0, 0, 0⟩ ∧
      angleValue (some frameWaist) "Waist (Y-Axis Rotation)" = -90 ∧
      (-90 : ℝ) ≠ 0 := by
  refine ⟨by norm_num [Vec3.sub, Vec3.lengthSq], rfl, rfl, ?_, by norm_num⟩
  have hn1 : ((Vec3.mk (1 / 100000 : ℝ) 0 0).sub ⟨0, 0, 0⟩).normalize = ⟨1, 0, 0⟩ := by
    have hl : ((Vec3.mk (1 / 100000 : ℝ) 0 0).sub ⟨0, 0, 0⟩).len = 1 / 100000 :=
      len_eval _ _ (by norm_num [Vec3.sub, Vec3.lengthSq]) (by norm_num)
    rw [normalize_eval _ _ hl (by norm_num)]
    ext <;> norm_num [Vec3.sub]
  have hn2 : ((Vec3.mk (0 : ℝ) 1 0).sub ⟨0, 0, 0⟩).normalize = ⟨0, 1, 0⟩ := by
    have hl : ((Vec3.mk (0 : ℝ) 1 0).sub ⟨0, 0, 0⟩).len = 1 :=
      len_eval _ _ (by norm_num [Vec3.sub, Vec3.lengthSq]) (by norm_num)
    rw [normalize_eval _ _ hl one_ne_zero]
    ext <;> norm_num [Vec3.sub]
  have hn3 : ((Vec3.mk (1 / 100000 : ℝ) 0 1).sub ⟨1 / 100000, 0, 0⟩).normalize
      = ⟨0, 0, 1⟩ := by
    have hl : ((Vec3.mk (1 / 100000 : ℝ) 0 1).sub ⟨1 / 100000, 0, 0⟩).len = 1 :=
      len_eval _ _ (by norm_num [Vec3.sub, Vec3.lengthSq]) (by norm_num)
    rw [normalize_eval _ _ hl one_ne_zero]
    ext <;> norm_num [Vec3.sub]
  have hc1 : (Vec3.mk (1 : ℝ) 0 0).cross ⟨0, 1, 0⟩ = ⟨0, 0, 1⟩ := by
    ext <;> norm_num [Vec3.cross]
  have hu3 : (Vec3.mk (0 : ℝ) 0 1).normalize = ⟨0, 0, 1⟩ := by
    have hl : (Vec3.mk (0 : ℝ) 0 1).len = 1 :=
      len_eval _ _ (by norm_num [Vec3.lengthSq]) (by norm_num)
    rw [normalize_eval _ _ hl one_ne_zero]
    ext <;> norm_num
  have hc2 : (Vec3.mk (1 : ℝ) 0 0).cross ⟨0, 0, 1⟩ = ⟨0, -1, 0⟩ := by
    ext <;> norm_num [Vec3.cross]
  have hu4 : (Vec3.mk (0 : ℝ) (-1) 0).normalize = ⟨0, -1, 0⟩ := by
    have hl : (Vec3.mk (0 : ℝ) (-1) 0).len = 1 :=
      len_eval _ _ (by norm_num [Vec3.lengthSq]) (by norm_num)
    rw [normalize_eval _ _ hl one_ne_zero]
    ext <;> norm_num
  have hc3 : (Vec3.mk (0 : ℝ) 0 1).cross ⟨0, 1, 0⟩ = ⟨-1, 0, 0⟩ := by
    ext <;> norm_num [Vec3.cross]
  have hu5 : (Vec3.mk (-1 : ℝ) 0 0).normalize = ⟨-1, 0, 0⟩ := by
    have hl : (Vec3.mk (-1 : ℝ) 0 0).len = 1 :=
      len_eval _ _ (by norm_num [Vec3.lengthSq]) (by norm_num)
    rw [normalize_eval _ _ hl one_ne_zero]
    ext <;> norm_num
  have hc4 : (Vec3.mk (0 : ℝ) 0 1).cross ⟨-1, 0, 0⟩ = ⟨0, -1, 0⟩ := by
    ext <;> norm_num [Vec3.cross]
  have hinv : (Mat3.makeBasis ⟨0, -1, 0⟩ ⟨1, 0, 0⟩ ⟨0, 0, 1⟩).inv
      = Mat3.mk 0 (-1) 0 1 0 0 0 0 1 := by
    unfold Mat3.inv
    rw [if_neg (by norm_num [Mat3.det, Mat3.makeBasis])]
    ext <;> norm_num [Mat3.det, Mat3.makeBasis]
  have hmulm : (Mat3.makeBasis ⟨0, -1, 0⟩ ⟨0, 0, 1⟩ ⟨-1, 0, 0⟩).mul
      (Mat3.mk 0 (-1) 0 1 0 0 0 0 1) = Mat3.mk 0 0 (-1) 0 1 0 1 0 0 := by
    ext <;> norm_num [Mat3.mul, Mat3.makeBasis]
  have hy : atan2 (-1 : ℝ) 0 = -(Real.pi / 2) := by
    unfold atan2
    norm_num
  have hz : atan2 (0 : ℝ) 1 = 0 := by
    unfold atan2
    norm_num [Real.arctan_zero]
  have heuler : kinematics.rotation_matrix_to_euler_angles (Mat3.mk (0 : ℝ) 0 (-1) 0 1 0 1 0 0)
      = (0, -90, 0) := by
    unfold kinematics.rotation_matrix_to_euler_angles eulerYXZ clamp
    rw [if_pos (by norm_num)]
    dsimp only
    rw [show max (-1 : ℝ) (min 1 (0 : ℝ)) = 0 by norm_num, neg_zero, Real.arcsin_zero,
      hy, hz]
    have hpi := Real.pi_ne_zero
    simp only [Prod.mk.injEq]
    refine ⟨by norm_num, ?_, by norm_num⟩
    field_simp
    ring
  have hwr : kinematics.waistRaw frameWaist
      = [("Waist (X-Axis Rotation)", 0), ("Waist (Y-Axis Rotation)", -90),
         ("Waist (Z-Axis Rotation)", 0)] := by
    unfold kinematics.waistRaw
    rw [if_pos (by norm_num [frameWaist])]
    have g7 : getkp frameWaist 7 = some ⟨1 / 100000, 0, 0⟩ := rfl
    have g0 : getkp frameWaist 0 = some ⟨0, 0, 0⟩ := rfl
    have g1 : getkp frameWaist 1 = some ⟨0, 1, 0⟩ := rfl
    have g4 : getkp frameWaist 4 = some ⟨0, 0, 0⟩ := rfl
    have g8 : getkp frameWaist 8 = some ⟨1 / 100000, 0, 1⟩ := rfl
    rw [g7, g0, g1, g4]
    dsimp only
    rw [hn1, hn2, if_pos (by constructor <;> norm_num [Vec3.lengthSq]), g8]
    dsimp only
    rw [hc1, hu3, hc2, hu4, hn3, if_pos (by norm_num [Vec3.lengthSq]), hc3, hu5,
      hc4, hu4, hinv, hmulm, heuler]
  have hbv : (kinematics.bendRaw frameWaist ++ kinematics.verticalRaw frameWaist).lookup
      "Waist (Y-Axis Rotation)" = none := by
    rw [lookup_append_none _ _
      (bendRaw_lookup_none _ _ (by decide) (by decide) (by decide) (by decide))]
    exact verticalRaw_lookup_none _ _ (by decide)
  have hw0 : (kinematics.waistRaw frameWaist).lookup "Waist (Y-Axis Rotation)"
      = some (-90) := by
    rw [hwr]
    rfl
  have hfa : fullAngle frameWaist "Waist (Y-Axis Rotation)" = -90 := by
    unfold fullAngle partialRaw anatomicalRaw
    rw [lookup_append_none _ _ hbv,
      lookup_append_some _ _
        (lookup_append_some _ _
          (lookup_append_some _ _
            (lookup_append_some _ _ (lookup_append_some _ _ hw0))))]
    rfl
  rw [angleValue_full frameWaist (by norm_num [frameWaist]) _ (by decide), hfa]
  have h90 := toFixed1_intCast (-90)
  push_cast at h90
  rw [h90]

/-- **C7 (amended).**  For a frame whose left shoulder/elbow and hip/knee
keypoints are the sagittal mirror images of the right-side ones (with the
shared neck and pelvis keypoints on the mirror plane), and whose shoulder
and hip basis constructions are non-degenerate and away from the `atan2`
branch cuts, the left and right shoulder (and hip) X, Y **and Z** rotation
outputs are **equal** — the left-side sign-negation convention exactly
cancels the mirror flip of the raw Euler Y and Z components, which are
opposite before negation. -/
theorem C7_mirror_outputs_equal (kp : Frame) (h17 : 17 ≤ kp.length)
    (P8 P11 P12 P0 P1 P2 : Vec3)
    (h8 : getkp kp 8 = some P8) (h11 : getkp kp 11 = some P11)
    (h12 : getkp kp 12 = some P12)
    (h14 : getkp kp 14 = some (mirV P11)) (h15 : getkp kp 15 = some (mirV P12))
    (h0 : getkp kp 0 = some P0) (h1 : getkp kp 1 = some P1)
    (h2 : getkp kp 2 = some P2)
    (h4 : getkp kp 4 = some (mirV P1)) (h5 : getkp kp 5 = some (mirV P2))
    (hc8 : P8.x = 0) (hc0 : P0.x = 0)
    (hts : (Vec3.zero.sub (P12.sub P11)).lengthSq ≠ 0)
    (hxs : ((P8.sub P11).cross (Vec3.zero.sub (P12.sub P11)).normalize).lengthSq ≠ 0)
    (hth : (Vec3.zero.sub (P2.sub P1)).lengthSq ≠ 0)
    (hxh : ((P0.sub P1).cross (Vec3.zero.sub (P2.sub P1)).normalize).lengthSq ≠ 0)
    (hs13 : ¬((kinematics.compute_rotation_matrix (P8.sub P11) (P12.sub P11)).m13 = 0
      ∧ (kinematics.compute_rotation_matrix (P8.sub P11) (P12.sub P11)).m33 < 0))
    (hs21 : ¬((kinematics.compute_rotation_matrix (P8.sub P11) (P12.sub P11)).m21 = 0
      ∧ (kinematics.compute_rotation_matrix (P8.sub P11) (P12.sub P11)).m22 < 0))
    (hs31 : ¬((kinematics.compute_rotation_matrix (P8.sub P11) (P12.sub P11)).m31 = 0
      ∧ (kinematics.compute_rotation_matrix (P8.sub P11) (P12.sub P11)).m11 < 0))
    (hh13 : ¬((kinematics.compute_rotation_matrix (P0.sub P1) (P2.sub P1)).m13 = 0
      ∧ (kinematics.compute_rotation_matrix (P0.sub P1) (P2.sub P1)).m33 < 0))
    (hh21 : ¬((kinematics.compute_rotation_matrix (P0.sub P1) (P2.sub P1)).m21 = 0
      ∧ (kinematics.compute_rotation_matrix (P0.sub P1) (P2.sub P1)).m22 < 0))
    (hh31 : ¬((kinematics.compute_rotation_matrix (P0.sub P1) (P2.sub P1)).m31 = 0
      ∧ (kinematics.compute_rotation_matrix (P0.sub P1) (P2.sub P1)).m11 < 0)) :
    angleValue (some kp) "L Shoulder (X-Axis Rotation)"
        = angleValue (some kp) "R Shoulder (X-Axis Rotation)" ∧
      angleValue (some kp) "L Shoulder (Y-Axis Rotation)"
        = angleValue (some kp) "R Shoulder (Y-Axis Rotation)" ∧
      angleValue (some kp) "L Shoulder (Z-Axis Rotation)"
        = angleValue (some kp) "R Shoulder (Z-Axis Rotation)" ∧
      angleValue (some kp) "L Hip (X-Axis Rotation)"
        = angleValue (some kp) "R Hip (X-Axis Rotation)" ∧
      angleValue (some kp) "L Hip (Y-Axis Rotation)"
        = angleValue (some kp) "R Hip (Y-Axis Rotation)" ∧
      angleValue (some kp) "L Hip (Z-Axis Rotation)"
        = angleValue (some kp) "R Hip (Z-Axis Rotation)" := by
  have hmirPS : P8.sub (mirV P11) = mirV (P8.sub P11) := by
    conv_lhs => rw [← mirV_fixed P8 hc8]
    exact mirV_sub P8 P11
  have hmirDS : (mirV P12).sub (mirV P11) = mirV (P12.sub P11) := mirV_sub _ _
  have hmirPH : P0.sub (mirV P1) = mirV (P0.sub P1) := by
    conv_lhs => rw [← mirV_fixed P0 hc0]
    exact mirV_sub P0 P1
  have hmirDH : (mirV P2).sub (mirV P1) = mirV (P2.sub P1) := mirV_sub _ _
  have hpairS := mirror_pair (P8.sub P11) (P12.sub P11) hts hxs hs13 hs21 hs31
  have hpairH := mirror_pair (P0.sub P1) (P2.sub P1) hth hxh hh13 hh21 hh31
  have hRS3 := rShoulderRaw_lookup3 kp (by omega) P8 P11 P12 h8 h11 h12
  have hLS3 := lShoulderRaw_lookup3 kp (by omega) P8 (mirV P11) (mirV P12) h8 h14 h15
  have hRH3 := rHipRaw_lookup3 kp (by omega) P0 P1 P2 h0 h1 h2
  have hLH3 := lHipRaw_lookup3 kp (by omega) P0 (mirV P1) (mirV P2) h0 h4 h5
  rw [hmirPS, hmirDS, hpairS] at hLS3
  rw [hmirPH, hmirDH, hpairH] at hLH3
  simp only [neg_neg] at hLS3 hLH3
  have hfRSX := fullAngle_eq_of_anat kp "R Shoulder (X-Axis Rotation)" _
    (bendRaw_lookup_none kp "R Shoulder (X-Axis Rotation)"
      (by decide) (by decide) (by decide) (by decide))
    (verticalRaw_lookup_none kp "R Shoulder (X-Axis Rotation)" (by decide))
    (anat_lookup_rsh kp "R Shoulder (X-Axis Rotation)" _
      (waistRaw_lookup_none kp "R Shoulder (X-Axis Rotation)"
        (by decide) (by decide) (by decide))
      (neckRaw_lookup_none kp "R Shoulder (X-Axis Rotation)"
        (by decide) (by decide) (by decide))
      hRS3.1)
  have hfRSY := fullAngle_eq_of_anat kp "R Shoulder (Y-Axis Rotation)" _
    (bendRaw_lookup_none kp "R Shoulder (Y-Axis Rotation)"
      (by decide) (by decide) (by decide) (by decide))
    (verticalRaw_lookup_none kp "R Shoulder (Y-Axis Rotation)" (by decide))
    (anat_lookup_rsh kp "R Shoulder (Y-Axis Rotation)" _
      (waistRaw_lookup_none kp "R Shoulder (Y-Axis Rotation)"
        (by decide) (by decide) (by decide))
      (neckRaw_lookup_none kp "R Shoulder (Y-Axis Rotation)"
        (by decide) (by decide) (by decide))
      hRS3.2.1)
  have hfRSZ := fullAngle_eq_of_anat kp "R Shoulder (Z-Axis Rotation)" _
    (bendRaw_lookup_none kp "R Shoulder (Z-Axis Rotation)"
      (by decide) (by decide) (by decide) (by decide))
    (verticalRaw_lookup_none kp "R Shoulder (Z-Axis Rotation)" (by decide))
    (anat_lookup_rsh kp "R Shoulder (Z-Axis Rotation)" _
      (waistRaw_lookup_none kp "R Shoulder (Z-Axis Rotation)"
        (by decide) (by decide) (by decide))
      (neckRaw_lookup_none kp "R Shoulder (Z-Axis Rotation)"
        (by decide) (by decide) (by decide))
      hRS3.2.2)
  have hfLSX := fullAngle_eq_of_anat kp "L Shoulder (X-Axis Rotation)" _
    (bendRaw_lookup_none kp "L Shoulder (X-Axis Rotation)"
      (by decide) (by decide) (by decide) (by decide))
    (verticalRaw_lookup_none kp "L Shoulder (X-Axis Rotation)" (by decide))
    (anat_lookup_lsh kp "L Shoulder (X-Axis Rotation)" _
      (waistRaw_lookup_none kp "L Shoulder (X-Axis Rotation)"
        (by decide) (by decide) (by decide))
      (neckRaw_lookup_none kp "L Shoulder (X-Axis Rotation)"
        (by decide) (by decide) (by decide))
      (rShoulderRaw_lookup_none kp "L Shoulder (X-Axis Rotation)"
        (by decide) (by decide) (by decide))
      hLS3.1)
  have hfLSY := fullAngle_eq_of_anat kp "L Shoulder (Y-Axis Rotation)" _
    (bendRaw_lookup_none kp "L Shoulder (Y-Axis Rotation)"
      (by decide) (by decide) (by decide) (by decide))
    (verticalRaw_lookup_none kp "L Shoulder (Y-Axis Rotation)" (by decide))
    (anat_lookup_lsh kp "L Shoulder (Y-Axis Rotation)" _
      (waistRaw_lookup_none kp "L Shoulder (Y-Axis Rotation)"
        (by decide) (by decide) (by decide))
      (neckRaw_lookup_none kp "L Shoulder (Y-Axis Rotation)"
        (by decide) (by decide) (by decide))
      (rShoulderRaw_lookup_none kp "L Shoulder (Y-Axis Rotation)"
        (by decide) (by decide) (by decide))
      hLS3.2.1)
  have hfLSZ := fullAngle_eq_of_anat kp "L Shoulder (Z-Axis Rotation)" _
    (bendRaw_lookup_none kp "L Shoulder (Z-Axis Rotation)"
      (by decide) (by decide) (by decide) (by decide))
    (verticalRaw_lookup_none kp "L Shoulder (Z-Axis Rotation)" (by decide))
    (anat_lookup_lsh kp "L Shoulder (Z-Axis Rotation)" _
      (waistRaw_lookup_none kp "L Shoulder (Z-Axis Rotation)"
        (by decide) (by decide) (by decide))
      (neckRaw_lookup_none kp "L Shoulder (Z-Axis Rotation)"
        (by decide) (by decide) (by decide))
      (rShoulderRaw_lookup_none kp "L Shoulder (Z-Axis Rotation)"
        (by decide) (by decide) (by decide))
      hLS3.2.2)
  have hfRHX := fullAngle_eq_of_anat kp "R Hip (X-Axis Rotation)" _
    (bendRaw_lookup_none kp "R Hip (X-Axis Rotation)"
      (by decide) (by decide) (by decide) (by decide))
    (verticalRaw_lookup_none kp "R Hip (X-Axis Rotation)" (by decide))
    (anat_lookup_rhip kp "R Hip (X-Axis Rotation)" _
      (waistRaw_lookup_none kp "R Hip (X-Axis Rotation)"
        (by decide) (by decide) (by decide))
      (neckRaw_lookup_none kp "R Hip (X-Axis Rotation)"
        (by decide) (by decide) (by decide))
      (rShoulderRaw_lookup_none kp "R Hip (X-Axis Rotation)"
        (by decide) (by decide) (by decide))
      (lShoulderRaw_lookup_none kp "R Hip (X-Axis Rotation)"
        (by decide) (by decide) (by decide))
      hRH3.1)
  have hfRHY := fullAngle_eq_of_anat kp "R Hip (Y-Axis Rotation)" _
    (bendRaw_lookup_none kp "R Hip (Y-Axis Rotation)"
      (by decide) (by decide) (by decide) (by decide))
    (verticalRaw_lookup_none kp "R Hip (Y-Axis Rotation)" (by decide))
    (anat_lookup_rhip kp "R Hip (Y-Axis Rotation)" _
      (waistRaw_lookup_none kp "R Hip (Y-Axis Rotation)"
        (by decide) (by decide) (by decide))
      (neckRaw_lookup_none kp "R Hip (Y-Axis Rotation)"
        (by decide) (by decide) (by decide))
      (rShoulderRaw_lookup_none kp "R Hip (Y-Axis Rotation)"
        (by decide) (by decide) (by decide))
      (lShoulderRaw_lookup_none kp "R Hip (Y-Axis Rotation)"
        (by decide) (by decide) (by decide))
      hRH3.2.1)
  have hfRHZ := fullAngle_eq_of_anat kp "R Hip (Z-Axis Rotation)" _
    (bendRaw_lookup_none kp "R Hip (Z-Axis Rotation)"
      (by decide) (by decide) (by decide) (by decide))
    (verticalRaw_lookup_none kp "R Hip (Z-Axis Rotation)" (by decide))
    (anat_lookup_rhip kp "R Hip (Z-Axis Rotation)" _
      (waistRaw_lookup_none kp "R Hip (Z-Axis Rotation)"
        (by decide) (by decide) (by decide))
      (neckRaw_lookup_none kp "R Hip (Z-Axis Rotation)"
        (by decide) (by decide) (by decide))
      (rShoulderRaw_lookup_none kp "R Hip (Z-Axis Rotation)"
        (by decide) (by decide) (by decide))
      (lShoulderRaw_lookup_none kp "R Hip (Z-Axis Rotation)"
        (by decide) (by decide) (by decide))
      hRH3.2.2)
  have hfLHX := fullAngle_eq_of_anat kp "L Hip (X-Axis Rotation)" _
    (bendRaw_lookup_none kp "L Hip (X-Axis Rotation)"
      (by decide) (by decide) (by decide) (by decide))
    (verticalRaw_lookup_none kp "L Hip (X-Axis Rotation)" (by decide))
    (anat_lookup_lhip kp "L Hip (X-Axis Rotation)" _
      (waistRaw_lookup_none kp "L Hip (X-Axis Rotation)"
        (by decide) (by decide) (by decide))
      (neckRaw_lookup_none kp "L Hip (X-Axis Rotation)"
        (by decide) (by decide) (by decide))
      (rShoulderRaw_lookup_none kp "L Hip (X-Axis Rotation)"
        (by decide) (by decide) (by decide))
      (lShoulderRaw_lookup_none kp "L Hip (X-Axis Rotation)"
        (by decide) (by decide) (by decide))
      (rHipRaw_lookup_none kp "L Hip (X-Axis Rotation)"
        (by decide) (by decide) (by decide))
      hLH3.1)
  have hfLHY := fullAngle_eq_of_anat kp "L Hip (Y-Axis Rotation)" _
    (bendRaw_lookup_none kp "L Hip (Y-Axis Rotation)"
      (by decide) (by decide) (by decide) (by decide))
    (verticalRaw_lookup_none kp "L Hip (Y-Axis Rotation)" (by decide))
    (anat_lookup_lhip kp "L Hip (Y-Axis Rotation)" _
      (waistRaw_lookup_none kp "L Hip (Y-Axis Rotation)"
        (by decide) (by decide) (by decide))
      (neckRaw_lookup_none kp "L Hip (Y-Axis Rotation)"
        (by decide) (by decide) (by decide))
      (rShoulderRaw_lookup_none kp "L Hip (Y-Axis Rotation)"
        (by decide) (by decide) (by decide))
      (lShoulderRaw_lookup_none kp "L Hip (Y-Axis Rotation)"
        (by decide) (by decide) (by decide))
      (rHipRaw_lookup_none kp "L Hip (Y-Axis Rotation)"
        (by decide) (by decide) (by decide))
      hLH3.2.1)
  have hfLHZ := fullAngle_eq_of_anat kp "L Hip (Z-Axis Rotation)" _
    (bendRaw_lookup_none kp "L Hip (Z-Axis Rotation)"
      (by decide) (by decide) (by decide) (by decide))
    (verticalRaw_lookup_none kp "L Hip (Z-Axis Rotation)" (by decide))
    (anat_lookup_lhip kp "L Hip (Z-Axis Rotation)" _
      (waistRaw_lookup_none kp "L Hip (Z-Axis Rotation)"
        (by decide) (by decide) (by decide))
      (neckRaw_lookup_none kp "L Hip (Z-Axis Rotation)"
        (by decide) (by decide) (by decide))
      (rShoulderRaw_lookup_none kp "L Hip (Z-Axis Rotation)"
        (by decide) (by decide) (by decide))
      (lShoulderRaw_lookup_none kp "L Hip (Z-Axis Rotation)"
        (by decide) (by decide) (by decide))
      (rHipRaw_lookup_none kp "L Hip (Z-Axis Rotation)"
        (by decide) (by decide) (by decide))
      hLH3.2.2)
  refine ⟨?_, ?_, ?_, ?_, ?_, ?_⟩
  · rw [angleValue_full kp h17 _ (by decide), angleValue_full kp h17 _ (by decide),
      hfLSX, hfRSX]
  · rw [angleValue_full kp h17 _ (by decide), angleValue_full kp h17 _ (by decide),
      hfLSY, hfRSY]
  · rw [angleValue_full kp h17 _ (by decide), angleValue_full kp h17 _ (by decide),
      hfLSZ, hfRSZ]
  · rw [angleValue_full kp h17 _ (by decide), angleValue_full kp h17 _ (by decide),
      hfLHX, hfRHX]
  · rw [angleValue_full kp h17 _ (by decide), angleValue_full kp h17 _ (by decide),
      hfLHY, hfRHY]
  · rw [angleValue_full kp h17 _ (by decide), angleValue_full kp h17 _ (by decide),
      hfLHZ, hfRHZ]

lemma normalize_e2 : (Vec3.mk (0 : ℝ) 1 0).normalize = ⟨0, 1, 0⟩ := by
  have hl : (Vec3.mk (0 : ℝ) 1 0).len = 1 :=
    len_eval _ _ (by norm_num [Vec3.lengthSq]) (by norm_num)
  rw [normalize_eval _ _ hl one_ne_zero]
  ext <;> norm_num

lemma atan2_one_zero : atan2 (1 : ℝ) 0 = Real.pi / 2 := by
  unfold atan2
  norm_num

lemma atan2_negone_zero : atan2 (-1 : ℝ) 0 = -(Real.pi / 2) := by
  unfold atan2
  norm_num

/-- The right-shoulder rotation matrix at `frameMirror`. -/
lemma crmS_eval : kinematics.compute_rotation_matrix ⟨-1, 1, 0⟩ ⟨0, -1, 0⟩
    = Mat3.mk 0 0 (-1) (-1) 0 0 0 1 0 := by
  unfold kinematics.compute_rotation_matrix
  rw [if_neg (by push_neg; constructor <;> norm_num [Vec3.lengthSq])]
  have hz0 : Vec3.zero.sub ⟨0, -1, 0⟩ = Vec3.mk 0 1 0 := by
    ext <;> norm_num [Vec3.zero, Vec3.sub]
  unfold lookAtBasis
  dsimp only
  rw [hz0,
    if_neg (show ¬(Vec3.mk (0 : ℝ) 1 0).lengthSq = 0 by norm_num [Vec3.lengthSq]),
    normalize_e2]
  have hx0 : (Vec3.mk (-1 : ℝ) 1 0).cross ⟨0, 1, 0⟩ = ⟨0, 0, -1⟩ := by
    ext <;> norm_num [Vec3.cross]
  rw [hx0,
    if_neg (show ¬(Vec3.mk (0 : ℝ) 0 (-1)).lengthSq = 0 by norm_num [Vec3.lengthSq])]
  have hxn : (Vec3.mk (0 : ℝ) 0 (-1)).normalize = ⟨0, 0, -1⟩ := by
    have hl : (Vec3.mk (0 : ℝ) 0 (-1)).len = 1 :=
      len_eval _ _ (by norm_num [Vec3.lengthSq]) (by norm_num)
    rw [normalize_eval _ _ hl one_ne_zero]
    ext <;> norm_num
  rw [hxn]
  have hy : (Vec3.mk (0 : ℝ) 1 0).cross ⟨0, 0, -1⟩ = ⟨-1, 0, 0⟩ := by
    ext <;> norm_num [Vec3.cross]
  rw [hy]
  unfold Mat3.inv
  rw [if_neg (by norm_num [Mat3.det, Mat3.makeBasis])]
  ext <;> norm_num [Mat3.det, Mat3.makeBasis]

/-- The left-shoulder rotation matrix at `frameMirror`. -/
lemma crmL_eval : kinematics.compute_rotation_matrix ⟨1, 1, 0⟩ ⟨0, -1, 0⟩
    = Mat3.mk 0 0 1 1 0 0 0 1 0 := by
  unfold kinematics.compute_rotation_matrix
  rw [if_neg (by push_neg; constructor <;> norm_num [Vec3.lengthSq])]
  have hz0 : Vec3.zero.sub ⟨0, -1, 0⟩ = Vec3.mk 0 1 0 := by
    ext <;> norm_num [Vec3.zero, Vec3.sub]
  unfold lookAtBasis
  dsimp only
  rw [hz0,
    if_neg (show ¬(Vec3.mk (0 : ℝ) 1 0).lengthSq = 0 by norm_num [Vec3.lengthSq]),
    normalize_e2]
  have hx0 : (Vec3.mk (1 : ℝ) 1 0).cross ⟨0, 1, 0⟩ = ⟨0, 0, 1⟩ := by
    ext <;> norm_num [Vec3.cross]
  rw [hx0,
    if_neg (show ¬(Vec3.mk (0 : ℝ) 0 1).lengthSq = 0 by norm_num [Vec3.lengthSq])]
  have hxn : (Vec3.mk (0 : ℝ) 0 1).normalize = ⟨0, 0, 1⟩ := by
    have hl : (Vec3.mk (0 : ℝ) 0 1).len = 1 :=
      len_eval _ _ (by norm_num [Vec3.lengthSq]) (by norm_num)
    rw [normalize_eval _ _ hl one_ne_zero]
    ext <;> norm_num
  rw [hxn]
  have hy : (Vec3.mk (0 : ℝ) 1 0).cross ⟨0, 0, 1⟩ = ⟨1, 0, 0⟩ := by
    ext <;> norm_num [Vec3.cross]
  rw [hy]
  unfold Mat3.inv
  rw [if_neg (by norm_num [Mat3.det, Mat3.makeBasis])]
  ext <;> norm_num [Mat3.det, Mat3.makeBasis]

lemma rmeR_eval : kinematics.rotation_matrix_to_euler_angles
    (Mat3.mk (0 : ℝ) 0 (-1) (-1) 0 0 0 1 0) = (0, -90, -90) := by
  unfold kinematics.rotation_matrix_to_euler_angles eulerYXZ clamp
  rw [if_pos (by norm_num)]
  dsimp only
  rw [show max (-1 : ℝ) (min 1 (0 : ℝ)) = 0 by norm_num, neg_zero, Real.arcsin_zero,
    atan2_negone_zero]
  have hpi := Real.pi_ne_zero
  simp only [Prod.mk.injEq]
  refine ⟨by norm_num, ?_, ?_⟩ <;> (field_simp; ring)

lemma rmeL_eval : kinematics.rotation_matrix_to_euler_angles
    (Mat3.mk (0 : ℝ) 0 1 1 0 0 0 1 0) = (0, 90, 90) := by
  unfold kinematics.rotation_matrix_to_euler_angles eulerYXZ clamp
  rw [if_pos (by norm_num)]
  dsimp only
  rw [show max (-1 : ℝ) (min 1 (0 : ℝ)) = 0 by norm_num, neg_zero, Real.arcsin_zero,
    atan2_one_zero]
  have hpi := Real.pi_ne_zero
  simp only [Prod.mk.injEq]
  refine ⟨by norm_num, ?_, ?_⟩ <;> (field_simp; ring)

lemma frameMirror_RSY : angleValue (some frameMirror) "R Shoulder (Y-Axis Rotation)"
    = -90 := by
  have hRS3 := rShoulderRaw_lookup3 frameMirror (by norm_num [frameMirror])
    ⟨0, 1, 0⟩ ⟨1, 0, 0⟩ ⟨1, -1, 0⟩ rfl rfl rfl
  have hs1 : (Vec3.mk (0 : ℝ) 1 0).sub ⟨1, 0, 0⟩ = ⟨-1, 1, 0⟩ := by
    ext <;> norm_num [Vec3.sub]
  have hs2 : (Vec3.mk (1 : ℝ) (-1) 0).sub ⟨1, 0, 0⟩ = ⟨0, -1, 0⟩ := by
    ext <;> norm_num [Vec3.sub]
  rw [hs1, hs2, crmS_eval, rmeR_eval] at hRS3
  have hfa := fullAngle_eq_of_anat frameMirror "R Shoulder (Y-Axis Rotation)" _
    (bendRaw_lookup_none frameMirror "R Shoulder (Y-Axis Rotation)"
      (by decide) (by decide) (by decide) (by decide))
    (verticalRaw_lookup_none frameMirror "R Shoulder (Y-Axis Rotation)" (by decide))
    (anat_lookup_rsh frameMirror "R Shoulder (Y-Axis Rotation)" _
      (waistRaw_lookup_none frameMirror "R Shoulder (Y-Axis Rotation)"
        (by decide) (by decide) (by decide))
      (neckRaw_lookup_none frameMirror "R Shoulder (Y-Axis Rotation)"
        (by decide) (by decide) (by decide))
      hRS3.2.1)
  rw [angleValue_full frameMirror (by norm_num [frameMirror]) _ (by decide), hfa]
  have h90 := toFixed1_intCast (-90)
  push_cast at h90
  exact h90

lemma frameMirror_LSY : angleValue (some frameMirror) "L Shoulder (Y-Axis Rotation)"
    = -90 := by
  have hLS3 := lShoulderRaw_lookup3 frameMirror (by norm_num [frameMirror])
    ⟨0, 1, 0⟩ ⟨-1, 0, 0⟩ ⟨-1, -1, 0⟩ rfl rfl rfl
  have hs1 : (Vec3.mk (0 : ℝ) 1 0).sub ⟨-1, 0, 0⟩ = ⟨1, 1, 0⟩ := by
    ext <;> norm_num [Vec3.sub]
  have hs2 : (Vec3.mk (-1 : ℝ) (-1) 0).sub ⟨-1, 0, 0⟩ = ⟨0, -1, 0⟩ := by
    ext <;> norm_num [Vec3.sub]
  rw [hs1, hs2, crmL_eval, rmeL_eval] at hLS3
  have hfa := fullAngle_eq_of_anat frameMirror "L Shoulder (Y-Axis Rotation)" _
    (bendRaw_lookup_none frameMirror "L Shoulder (Y-Axis Rotation)"
      (by decide) (by decide) (by decide) (by decide))
    (verticalRaw_lookup_none frameMirror "L Shoulder (Y-Axis Rotation)" (by decide))
    (anat_lookup_lsh frameMirror "L Shoulder (Y-Axis Rotation)" _
      (waistRaw_lookup_none frameMirror "L Shoulder (Y-Axis Rotation)"
        (by decide) (by decide) (by decide))
      (neckRaw_lookup_none frameMirror "L Shoulder (Y-Axis Rotation)"
        (by decide) (by decide) (by decide))
      (rShoulderRaw_lookup_none frameMirror "L Shoulder (Y-Axis Rotation)"
        (by decide) (by decide) (by decide))
      hLS3.2.1)
  rw [angleValue_full frameMirror (by norm_num [frameMirror]) _ (by decide), hfa]
  have h90 := toFixed1_intCast (-90)
  push_cast at h90
  exact h90

/-- Counterexample to C7 as stated: `frameMirror` is a fully mirror-symmetric
pose (left keypoints are the sagittal reflections of the right ones, central
keypoints on the plane), yet its left and right shoulder Y rotation outputs
are both `-90` — equal, not opposite in sign. -/
theorem C7_counterexample :
    getkp frameMirror 4 = some (mirV ⟨1, -1, 0⟩) ∧
      getkp frameMirror 5 = some (mirV ⟨1, -2, 0⟩) ∧
      getkp frameMirror 6 = some (mirV ⟨1, -3, 0⟩) ∧
      getkp frameMirror 14 = some (mirV ⟨1, 0, 0⟩) ∧
      getkp frameMirror 15 = some (mirV ⟨1, -1, 0⟩) ∧
      getkp frameMirror 16 = some (mirV ⟨1, -2, 0⟩) ∧
      angleValue (some frameMirror) "R Shoulder (Y-Axis Rotation)" = -90 ∧
      angleValue (some frameMirror) "L Shoulder (Y-Axis Rotation)" = -90 ∧
      angleValue (some frameMirror) "L Shoulder (Y-Axis Rotation)"
        ≠ -(angleValue (some frameMirror) "R Shoulder (Y-Axis Rotation)") := by
  refine ⟨rfl, rfl, rfl, rfl, rfl, rfl, frameMirror_RSY, frameMirror_LSY, ?_⟩
  rw [frameMirror_RSY, frameMirror_LSY]
  norm_num

/-- Witness for C7 at `frameMirror`, discharging every non-degeneracy and
branch-cut hypothesis concretely. -/
theorem C7_mirror_outputs_equal_witness :
    angleValue (some frameMirror) "L Shoulder (X-Axis Rotation)"
        = angleValue (some frameMirror) "R Shoulder (X-Axis Rotation)" ∧
      angleValue (some frameMirror) "L Shoulder (Y-Axis Rotation)"
        = angleValue (some frameMirror) "R Shoulder (Y-Axis Rotation)" ∧
      angleValue (some frameMirror) "L Shoulder (Z-Axis Rotation)"
        = angleValue (some frameMirror) "R Shoulder (Z-Axis Rotation)" ∧
      angleValue (some frameMirror) "L Hip (X-Axis Rotation)"
        = angleValue (some frameMirror) "R Hip (X-Axis Rotation)" ∧
      angleValue (some frameMirror) "L Hip (Y-Axis Rotation)"
        = angleValue (some frameMirror) "R Hip (Y-Axis Rotation)" ∧
      angleValue (some frameMirror) "L Hip (Z-Axis Rotation)"
        = angleValue (some frameMirror) "R Hip (Z-Axis Rotation)" := by
  have hsubS1 : (Vec3.mk (0 : ℝ) 1 0).sub ⟨1, 0, 0⟩ = ⟨-1, 1, 0⟩ := by
    ext <;> norm_num [Vec3.sub]
  have hsubS2 : (Vec3.mk (1 : ℝ) (-1) 0).sub ⟨1, 0, 0⟩ = ⟨0, -1, 0⟩ := by
    ext <;> norm_num [Vec3.sub]
  have hsubH1 : (Vec3.mk (0 : ℝ) 0 0).sub ⟨1, -1, 0⟩ = ⟨-1, 1, 0⟩ := by
    ext <;> norm_num [Vec3.sub]
  have hsubH2 : (Vec3.mk (1 : ℝ) (-2) 0).sub ⟨1, -1, 0⟩ = ⟨0, -1, 0⟩ := by
    ext <;> norm_num [Vec3.sub]
  have hz0 : Vec3.zero.sub ((Vec3.mk (1 : ℝ) (-1) 0).sub ⟨1, 0, 0⟩) = Vec3.mk 0 1 0 := by
    ext <;> norm_num [Vec3.zero, Vec3.sub]
  have hz0h : Vec3.zero.sub ((Vec3.mk (1 : ℝ) (-2) 0).sub ⟨1, -1, 0⟩) = Vec3.mk 0 1 0 := by
    ext <;> norm_num [Vec3.zero, Vec3.sub]
  have hcr : (Vec3.mk (-1 : ℝ) 1 0).cross ⟨0, 1, 0⟩ = ⟨0, 0, -1⟩ := by
    ext <;> norm_num [Vec3.cross]
  have hxS : (((Vec3.mk (0 : ℝ) 1 0).sub ⟨1, 0, 0⟩).cross
      (Vec3.zero.sub ((Vec3.mk (1 : ℝ) (-1) 0).sub ⟨1, 0, 0⟩)).normalize).lengthSq ≠ 0 := by
    rw [hz0, normalize_e2, hsubS1, hcr]
    norm_num [Vec3.lengthSq]
  have hxH : (((Vec3.mk (0 : ℝ) 0 0).sub ⟨1, -1, 0⟩).cross
      (Vec3.zero.sub ((Vec3.mk (1 : ℝ) (-2) 0).sub ⟨1, -1, 0⟩)).normalize).lengthSq ≠ 0 := by
    rw [hz0h, normalize_e2, hsubH1, hcr]
    norm_num [Vec3.lengthSq]
  exact C7_mirror_outputs_equal frameMirror (by norm_num [frameMirror])
    ⟨0, 1, 0⟩ ⟨1, 0, 0⟩ ⟨1, -1, 0⟩ ⟨0, 0, 0⟩ ⟨1, -1, 0⟩ ⟨1, -2, 0⟩
    rfl rfl rfl rfl rfl rfl rfl rfl rfl rfl rfl rfl
    (by rw [hz0]; norm_num [Vec3.lengthSq])
    hxS
    (by rw [hz0h]; norm_num [Vec3.lengthSq])
    hxH
    (by rw [hsubS1, hsubS2, crmS_eval]; norm_num)
    (by rw [hsubS1, hsubS2, crmS_eval]; norm_num)
    (by rw [hsubS1, hsubS2, crmS_eval]; norm_num)
    (by rw [hsubH1, hsubH2, crmS_eval]; norm_num)
    (by rw [hsubH1, hsubH2, crmS_eval]; norm_num)
    (by rw [hsubH1, hsubH2, crmS_eval]; norm_num)

end Claims
